import Mathlib

/-!
# Verification of the CPAN bridge daemon's handle-store, cache and validation pipeline

This development gives a shallow embedding of the request-validation pipeline and
resource governor of `cpan_daemon.py`, and of the connection/statement handle store,
restoration protocol and connection cache of `helpers/database.py`, and proves (or
refutes) the specified properties against it.

Modelling conventions:
* Python dictionaries keyed by id strings become insertion-ordered association lists
  (`List (String × α)`); `dict[k] = v` replaces in place or appends, `del dict[k]`
  filters by key — matching CPython's insertion-ordered, unique-key semantics.
* `time.time()` becomes an explicit `now : Nat` argument; files on disk become the
  `connMeta` / `stmtMeta` components of the state.
* The Oracle driver (`oracledb`) is modelled by an `Env` of oracles: the result set a
  SQL text produces, whether `cursor.description` is populated before/after the first
  row is pulled, whether connect/re-connect succeeds, and the liveness-probe outcome
  for each live connection token.  A live connection is an opaque `Nat` token; fresh
  uuid4 ids and fresh connection tokens are passed in as explicit arguments.
* Strings of code points are used for passwords (`List Nat`) so that the XOR/latin-1/
  hex obfuscation of `_simple_encrypt` / `_simple_decrypt` can be modelled exactly.
-/

namespace CpanBridge

/-! ## Association lists modelling Python dicts -/

/-- `d.get(k)` — first binding of `k`, if any. -/
def alookup (l : List (String × α)) (k : String) : Option α :=
  (l.find? (fun p => p.1 == k)).map (·.2)

/-- `d[k] = v` — replace the binding in place if present, else append. -/
def aInsert (l : List (String × α)) (k : String) (v : α) : List (String × α) :=
  if l.any (fun p => p.1 == k) then
    l.map (fun p => if p.1 == k then (k, v) else p)
  else
    l ++ [(k, v)]

/-- `del d[k]` — drop every binding of `k`, keeping order. -/
def aErase (l : List (String × α)) (k : String) : List (String × α) :=
  l.filter (fun p => !(p.1 == k))

theorem alookup_nil (k : String) : alookup ([] : List (String × α)) k = none := rfl

theorem alookup_cons_pos (hd : String × α) (tl : List (String × α)) (k : String)
    (h : (hd.1 == k) = true) : alookup (hd :: tl) k = some hd.2 := by
  unfold alookup
  simp only [List.find?_cons, h, cond_true]
  rfl

theorem alookup_cons_neg (hd : String × α) (tl : List (String × α)) (k : String)
    (h : (hd.1 == k) = false) : alookup (hd :: tl) k = alookup tl k := by
  unfold alookup
  simp only [List.find?_cons, h, cond_false]

theorem alookup_aInsert (l : List (String × α)) (k : String) (v : α) :
    alookup (aInsert l k v) k = some v := by
  unfold aInsert
  by_cases hl : l.any (fun p => p.1 == k) = true
  · rw [if_pos hl]
    induction l with
    | nil => simp at hl
    | cons hd tl ih =>
      by_cases hk : (hd.1 == k) = true
      · rw [List.map_cons, if_pos hk, alookup_cons_pos _ _ _ (by simp)]
      · rw [Bool.not_eq_true] at hk
        rw [List.map_cons, if_neg (by simp [hk]), alookup_cons_neg _ _ _ hk]
        apply ih
        simp only [List.any_cons, hk, Bool.false_or] at hl
        exact hl
  · rw [if_neg hl]
    rw [Bool.not_eq_true, List.any_eq_false] at hl
    induction l with
    | nil => unfold alookup; simp
    | cons hd tl ih =>
      have hkhd : (hd.1 == k) = false := by
        have := hl hd (List.mem_cons_self ..)
        simpa using this
      rw [List.cons_append, alookup_cons_neg _ _ _ hkhd]
      exact ih (fun x hx => hl x (List.mem_cons_of_mem _ hx))

theorem alookup_aErase (l : List (String × α)) (k : String) :
    alookup (aErase l k) k = none := by
  unfold aErase
  induction l with
  | nil => rfl
  | cons hd tl ih =>
    by_cases hk : (hd.1 == k) = true
    · rw [List.filter_cons, if_neg (by simp [hk])]
      exact ih
    · rw [Bool.not_eq_true] at hk
      rw [List.filter_cons, if_pos (by simp [hk]), alookup_cons_neg _ _ _ hk]
      exact ih

theorem alookup_aErase_ne (l : List (String × α)) (k k' : String) (h : k ≠ k') :
    alookup (aErase l k) k' = alookup l k' := by
  unfold aErase
  induction l with
  | nil => rfl
  | cons hd tl ih =>
    by_cases hk : (hd.1 == k) = true
    · have h2 : (hd.1 == k') = false := by
        have heq : hd.1 = k := eq_of_beq hk
        rw [heq]
        simpa using h
      rw [List.filter_cons, if_neg (by simp [hk]), alookup_cons_neg _ _ _ h2]
      exact ih
    · rw [Bool.not_eq_true] at hk
      rw [List.filter_cons, if_pos (by simp [hk])]
      by_cases hk' : (hd.1 == k') = true
      · rw [alookup_cons_pos _ _ _ hk', alookup_cons_pos _ _ _ hk']
      · rw [Bool.not_eq_true] at hk'
        rw [alookup_cons_neg _ _ _ hk', alookup_cons_neg _ _ _ hk']
        exact ih

/-- A key whose filter predicate is false has no binding in the filtered dict. -/
theorem alookup_filter_keys_none (l : List (String × α)) (p : String → Bool) (k : String)
    (hpk : p k = false) : alookup (l.filter (fun q => p q.1)) k = none := by
  induction l with
  | nil => rfl
  | cons hd tl ih =>
    by_cases hk : (hd.1 == k) = true
    · have heq : hd.1 = k := eq_of_beq hk
      rw [List.filter_cons, if_neg (by rw [heq, hpk]; simp)]
      exact ih
    · rw [Bool.not_eq_true] at hk
      by_cases hp : p hd.1 = true
      · rw [List.filter_cons, if_pos hp, alookup_cons_neg _ _ _ hk]
        exact ih
      · rw [List.filter_cons, if_neg hp]
        exact ih

/-- Lookups survive key-based filtering: if a filtered dict still binds `k`,
the original dict bound `k` to the same value. -/
theorem alookup_filter_keys (l : List (String × α)) (p : String → Bool) (k : String) (v : α)
    (h : alookup (l.filter (fun q => p q.1)) k = some v) : alookup l k = some v := by
  induction l with
  | nil => simp [alookup] at h
  | cons hd tl ih =>
    by_cases hp : p hd.1 = true
    · rw [List.filter_cons, if_pos hp] at h
      by_cases hk : (hd.1 == k) = true
      · rw [alookup_cons_pos _ _ _ hk] at h ⊢
        exact h
      · rw [Bool.not_eq_true] at hk
        rw [alookup_cons_neg _ _ _ hk] at h ⊢
        exact ih h
    · rw [List.filter_cons, if_neg hp] at h
      by_cases hk : (hd.1 == k) = true
      · -- `hd` has key `k` yet is filtered out, so `p k = false` and every other
        -- binding of `k` is filtered out too — contradicting `h`
        exfalso
        have heq : hd.1 = k := eq_of_beq hk
        have hpk : p k = false := by
          rw [← heq]
          simpa using hp
        rw [alookup_filter_keys_none tl p k hpk] at h
        exact Option.noConfusion h
      · rw [Bool.not_eq_true] at hk
        rw [alookup_cons_neg _ _ _ hk]
        exact ih h

/-! ## String primitives

List-level implementations of the Python string operations the source uses
(`lower`, `upper`, `strip`, `split`, `in`, `startswith`, `int()`); Lean's built-in
`String` counterparts are avoided so that every definition evaluates by kernel
reduction. -/

def startsWithSeq : List Char → List Char → Bool
  | _, [] => true
  | [], _ :: _ => false
  | c :: cs, d :: ds => c = d && startsWithSeq cs ds

/-- `s.startswith(pre)`. -/
def startsWithStr (s pre : String) : Bool := startsWithSeq s.toList pre.toList

/-- `s.lower()` (ASCII). -/
def lowerString (s : String) : String := String.mk (s.toList.map Char.toLower)

/-- `s.upper()` (ASCII). -/
def upperString (s : String) : String := String.mk (s.toList.map Char.toUpper)

/-- Python whitespace (`str.strip` / `\s`). -/
def isPySpace (c : Char) : Bool :=
  c = ' ' || c = '\t' || c = '\n' || c = '\r' || c.val = 11 || c.val = 12

/-- `s.strip()`. -/
def stripString (s : String) : String :=
  String.mk (((s.toList.dropWhile isPySpace).reverse.dropWhile isPySpace).reverse)

/-- `sep in s` for a one-character separator. -/
def containsChar (s : String) (c : Char) : Bool := s.toList.any (fun d => d = c)

def splitOnChar (sep : Char) : List Char → List (List Char)
  | [] => [[]]
  | c :: rest =>
    let r := splitOnChar sep rest
    if c = sep then [] :: r
    else
      match r with
      | [] => [[c]]
      | g :: gs => (c :: g) :: gs

/-- `s.split(sep)` for a one-character separator. -/
def splitOnStr (s : String) (sep : Char) : List String :=
  (splitOnChar sep s.toList).map String.mk

/-- `s.split(sep, 1)` when `sep` occurs in `s`. -/
def splitOnceAfter (s : String) (sep : Char) : Option (String × String) :=
  match splitOnStr s sep with
  | [] => none
  | [_] => none
  | a :: rest => some (a, String.intercalate (String.mk [sep]) rest)

/-- `int(s)` for the non-negative decimal literals the DSN grammar produces. -/
def strToNat? (s : String) : Option Nat :=
  if s.toList ≠ [] ∧ s.toList.all Char.isDigit then
    some (s.toList.foldl (fun n c => n * 10 + (c.toNat - 48)) 0)
  else none

/-! ## Credential obfuscation (`_simple_encrypt` / `_simple_decrypt`)

`helpers/database.py` stores connection passwords in durable records XOR-ed with a
fixed key, latin-1 encoded, then hex encoded.  Characters are code points (`Nat`).
-/

/-- Code points of the fixed key string `CPAN_BRIDGE_DB_KEY_2024`. -/
def keyCodes : List Nat :=
  [67, 80, 65, 78, 95, 66, 82, 73, 68, 71, 69, 95, 68, 66, 95, 75, 69, 89, 95, 50, 48, 50, 52]

/-- `ord(key[i % len(key)])`. -/
def keyAt (i : Nat) : Nat := keyCodes.getD (i % keyCodes.length) 0

/-- XOR a stream of code points with the repeating key, starting at key index `i`. -/
def xorKeyFrom (i : Nat) : List Nat → List Nat
  | [] => []
  | c :: cs => (c ^^^ keyAt i) :: xorKeyFrom (i + 1) cs

/-- Lower-case hex digit of a nibble (`0-9a-f` as code points), as produced by
Python's `bytes.hex()`. -/
def hexDigitOf (d : Nat) : Nat := if d < 10 then 48 + d else 87 + d

/-- Code-point value of a hex digit, as accepted by `bytes.fromhex`
(whitespace tolerance of `fromhex` is not modelled; the encoder never emits it). -/
def valOfHexDigit (c : Nat) : Option Nat :=
  if 48 ≤ c ∧ c ≤ 57 then some (c - 48)
  else if 97 ≤ c ∧ c ≤ 102 then some (c - 87)
  else if 65 ≤ c ∧ c ≤ 70 then some (c - 55)
  else none

/-- `bytes.hex()`: two lower-case hex digits per byte. -/
def hexEncode (bs : List Nat) : List Nat :=
  bs.flatMap (fun b => [hexDigitOf (b / 16), hexDigitOf (b % 16)])

/-- `bytes.fromhex`: parse pairs of hex digits; any malformed input fails. -/
def hexDecode : List Nat → Option (List Nat)
  | [] => some []
  | [_] => none
  | c1 :: c2 :: rest =>
    match valOfHexDigit c1, valOfHexDigit c2, hexDecode rest with
    | some h, some l, some bs => some ((16 * h + l) :: bs)
    | _, _, _ => none

/-- `_simple_encrypt`: empty input maps to the empty string; otherwise XOR with the
key and hex-encode.  The latin-1 encode raises (modelled as `none`) whenever some
XOR-ed code point is 256 or more, in which case no durable record gets written. -/
def simple_encrypt (text : List Nat) : Option (List Nat) :=
  if text = [] then some []
  else
    let xored := xorKeyFrom 0 text
    if xored.all (fun b => b < 256) then some (hexEncode xored) else none

/-- `_simple_decrypt`: empty input maps to empty; malformed hex is swallowed by the
bare `except` and yields the empty string. -/
def simple_decrypt (hexText : List Nat) : List Nat :=
  if hexText = [] then []
  else
    match hexDecode hexText with
    | none => []
    | some bytes => xorKeyFrom 0 bytes

theorem xorKeyFrom_xorKeyFrom (i : Nat) (l : List Nat) :
    xorKeyFrom i (xorKeyFrom i l) = l := by
  induction l generalizing i with
  | nil => rfl
  | cons c cs ih =>
    simp only [xorKeyFrom, ih, Nat.xor_assoc, Nat.xor_self, Nat.xor_zero]

theorem valOfHexDigit_hexDigitOf (d : Nat) (h : d < 16) :
    valOfHexDigit (hexDigitOf d) = some d := by
  interval_cases d <;> rfl

theorem hexDecode_hexEncode (bs : List Nat) (h : ∀ b ∈ bs, b < 256) :
    hexDecode (hexEncode bs) = some bs := by
  induction bs with
  | nil => rfl
  | cons b rest ih =>
    have hb : b < 256 := h b (List.mem_cons_self ..)
    have h1 : b / 16 < 16 := by omega
    have h2 : b % 16 < 16 := by omega
    have hrest : hexDecode (hexEncode rest) = some rest :=
      ih (fun x hx => h x (List.mem_cons_of_mem _ hx))
    simp only [hexEncode] at hrest ⊢
    simp only [List.flatMap_cons, List.cons_append, List.nil_append]
    simp only [hexDecode, valOfHexDigit_hexDigitOf _ h1, valOfHexDigit_hexDigitOf _ h2, hrest]
    have hdm : 16 * (b / 16) + b % 16 = b := by omega
    rw [hdm]

/-! ## Data model of `helpers/database.py`

In-memory handles, durable records and the connection cache.  A row is a list of
column values (`List Int`); a cursor is the list of rows not yet fetched plus a flag
recording whether `cursor.description` is populated.
-/

/-- Connection options dict; a missing dict or missing key takes the DBI default
(`AutoCommit=True, RaiseError=False, PrintError=True`). -/
structure DbOptions where
  autoCommit : Bool := true
  raiseError : Bool := false
  printError : Bool := true
deriving DecidableEq, Repr

def optAutoCommit : Option DbOptions → Bool
  | none => true
  | some o => o.autoCommit

def optRaiseError : Option DbOptions → Bool
  | none => false
  | some o => o.raiseError

def optPrintError : Option DbOptions → Bool
  | none => true
  | some o => o.printError

/-- An open cursor: remaining result rows, and whether `cursor.description`
is populated. -/
structure CursorState where
  rows : List (List Int)
  descAvail : Bool
deriving DecidableEq, Repr

/-- An entry of the in-memory `_connections` dict.  The live `oracledb` connection is
an opaque token.  Entries inserted by the restore paths lack the `auth_mode` key,
hence `authMode : Option String`. -/
structure ConnInfo where
  conn : Nat
  type : String
  dsn : String
  username : String
  authMode : Option String
  autocommit : Bool
  raiseError : Bool
  printError : Bool
deriving DecidableEq, Repr

/-- An entry of the in-memory `_statements` dict (`out_params`, `original_sql` and
`last_error` are elided: no modelled flow touches them).  Python stores the pending
row under a key that may be absent or `None`; both read identically, so a single
`Option` models the slot. -/
structure StmtInfo where
  connectionId : String
  sql : String
  cursor : Option CursorState
  executed : Bool
  finished : Bool
  peekedRow : Option (List Int)
deriving DecidableEq, Repr

/-- A durable connection record (`<id>.json` under the persistence dir). -/
structure ConnMeta where
  type : String
  dsn : String
  username : String
  password : List Nat
  authMode : String
  autocommit : Bool
  raiseError : Bool
  printError : Bool
  createdAt : Nat
  lastUsed : Nat
deriving DecidableEq, Repr

/-- A durable statement record (`stmt_<id>.json`). -/
structure StmtMeta where
  connectionId : String
  sql : String
  executed : Bool
  finished : Bool
  peekedRow : Option (List Int)
  createdAt : Nat
  lastUsed : Nat
deriving DecidableEq, Repr

/-- An entry of `_CONNECTION_CACHE`.  Python stores a reference to the live
`_connections` dict entry; the model stores the value at insertion time (no modelled
flow mutates a cached connection's fields). -/
structure CacheEntry where
  connectionId : String
  connection : ConnInfo
  createdAt : Nat
  lastUsed : Nat
  dsn : String
  username : String
  options : Option DbOptions
  cacheKey : String
deriving DecidableEq, Repr

/-- The module-level mutable state: the two in-memory handle dicts, the durable
records on disk, and the connection cache. -/
structure DbState where
  connections : List (String × ConnInfo)
  statements : List (String × StmtInfo)
  connMeta : List (String × ConnMeta)
  stmtMeta : List (String × StmtMeta)
  cache : List (String × CacheEntry)
deriving DecidableEq, Repr

/-- Oracle-driver model: everything the `oracledb` library decides.  `query` is the
result set a SQL text produces; `descReady` says whether `cursor.description` is
populated directly after `execute` and `descAfterFetch` whether it is populated once
one row has been pulled; `alive` is the `SELECT 1 FROM DUAL` liveness probe per live
connection token; `rowcount` is `cursor.rowcount` after execute. -/
structure Env where
  query : String → List (List Int)
  execOk : String → Bool
  descReady : String → Bool
  descAfterFetch : String → Bool
  connectOk : String → String → List Nat → Bool
  kerberosOk : String → String → Bool
  krb5EnvSet : Bool
  alive : Nat → Bool
  rowcount : String → Int

/-- `_CONNECTION_TIMEOUT` (seconds): TTL of durable records. -/
def connectionTimeout : Nat := 1800

/-- `_CACHE_MAX_SIZE`. -/
def cacheMaxSize : Nat := 50

/-- `_CACHE_IDLE_TIMEOUT` (seconds). -/
def cacheIdleTimeout : Nat := 600

/-! ## DSN parsing and cache keys -/

/-- The `key=value;key=value` branch of `_parse_oracle_dsn`: later duplicate keys
override earlier ones, keys are lower-cased. -/
def parseKeyValueParams (segs : List String) : List (String × String) :=
  segs.foldl (fun acc param =>
    match splitOnceAfter param '=' with
    | some (k, v) => aInsert acc (lowerString k) v
    | none => acc) []

/-- `_parse_oracle_dsn`.  Returns the params dict, or the message of the raised
exception (`ValueError` for a non-Oracle driver or a non-numeric port). -/
def parse_oracle_dsn (dsn : String) : Except String (List (String × String)) :=
  if startsWithStr dsn "dbi:" then
    match splitOnceAfter (dsn.drop 4) ':' with
    | none => .ok []
    | some (driver, dbInfo) =>
      if lowerString driver = "oracle" ∨ lowerString driver = "ora" then
        if containsChar dbInfo ';' then
          .ok (parseKeyValueParams (splitOnStr dbInfo ';'))
        else if containsChar dbInfo ':' ∧ ¬ startsWithStr dbInfo "(" then
          match splitOnStr dbInfo ':' with
          | p0 :: p1 :: p2 :: _ =>
            match strToNat? p1 with
            | some _ => .ok [("host", p0), ("port", p1), ("sid", p2)]
            | none => .error ("invalid literal for int: " ++ p1)
          | _ => .ok []
        else .ok [("tns", dbInfo)]
      else .error ("Only Oracle databases are supported, got: " ++ driver)
  else .ok [("tns", dsn)]

/-- `d.get(k)` filtered through Python truthiness (the empty string is falsy). -/
def getTruthy (params : List (String × String)) (k : String) : Option String :=
  match alookup params k with
  | some v => if v = "" then none else some v
  | none => none

/-- `db_info.get('tns') or db_info.get('service_name') or db_info.get('sid', 'unknown')`. -/
def dsnDatabase (params : List (String × String)) : String :=
  match getTruthy params "tns" with
  | some v => v
  | none =>
    match getTruthy params "service_name" with
    | some v => v
    | none => (alookup params "sid").getD "unknown"

/-- `_make_cache_key`: built from the DSN's database identity, the username and the
three behaviour flags — the password is not an input at all. -/
def make_cache_key (dsn username : String) (options : Option DbOptions) :
    Except String String :=
  (parse_oracle_dsn dsn).map (fun params =>
    let database := dsnDatabase params
    let ac := if optAutoCommit options then "1" else "0"
    let re := if optRaiseError options then "1" else "0"
    let pe := if optPrintError options then "1" else "0"
    "oracle:" ++ database ++ ":" ++ username ++ ":" ++ "ac" ++ ac ++ "_re" ++ re ++ "_pe" ++ pe)

/-- `_convert_placeholders_to_oracle`: replace each `?` outside string literals with
`:1`, `:2`, … -/
def convertPlaceholdersGo : List Char → Nat → Bool → Option Char → List Char
  | [], _, _, _ => []
  | c :: rest, n, inStr, strCh =>
    let (inStr', strCh') :=
      if c = '\'' ∨ c = '"' then
        if ¬ inStr then (true, some c)
        else if some c = strCh then (false, none)
        else (inStr, strCh)
      else (inStr, strCh)
    if c = '?' ∧ ¬ inStr' then
      (':' :: (toString n).toList) ++ convertPlaceholdersGo rest (n + 1) inStr' strCh'
    else
      c :: convertPlaceholdersGo rest n inStr' strCh'

def convert_placeholders_to_oracle (sql : String) : String :=
  String.mk (convertPlaceholdersGo sql.toList 1 false none)

/-! ## Durable records: save / load / remove -/

/-- `_save_connection_metadata`: write the durable record, storing the password
obfuscated (only for password auth).  If `_simple_encrypt` raises (some XOR-ed code
point ≥ 256) the `except` swallows it and no record is written. -/
def save_connection_metadata (st : DbState) (now : Nat) (cid : String) (c : ConnInfo)
    (password : List Nat) (authMode : String) : DbState :=
  let stored := if password ≠ [] ∧ authMode = "password" then simple_encrypt password
                else some []
  match stored with
  | none => st
  | some enc =>
    let rec' : ConnMeta :=
      { type := c.type, dsn := c.dsn, username := c.username, password := enc,
        authMode := authMode, autocommit := c.autocommit, raiseError := c.raiseError,
        printError := c.printError, createdAt := now, lastUsed := now }
    { st with connMeta := aInsert st.connMeta cid rec' }

/-- `_load_connection_metadata`: a missing record yields `None`; an expired record is
deleted and yields `None`; otherwise `last_used` is refreshed on disk (the TTL origin
`created_at` is not). -/
def load_connection_metadata (st : DbState) (now : Nat) (cid : String) :
    Option ConnMeta × DbState :=
  match alookup st.connMeta cid with
  | none => (none, st)
  | some m =>
    if now - m.createdAt > connectionTimeout then
      (none, { st with connMeta := aErase st.connMeta cid })
    else
      let m' := { m with lastUsed := now }
      (some m', { st with connMeta := aInsert st.connMeta cid m' })

/-- `_save_statement_metadata` (each save re-stamps `created_at`, as the source does). -/
def save_statement_metadata (st : DbState) (now : Nat) (sid : String) (s : StmtInfo) :
    DbState :=
  let rec' : StmtMeta :=
    { connectionId := s.connectionId, sql := s.sql, executed := s.executed,
      finished := s.finished, peekedRow := s.peekedRow, createdAt := now, lastUsed := now }
  { st with stmtMeta := aInsert st.stmtMeta sid rec' }

/-- `_load_statement_metadata`: same missing/expired/refresh behaviour as for
connections. -/
def load_statement_metadata (st : DbState) (now : Nat) (sid : String) :
    Option StmtMeta × DbState :=
  match alookup st.stmtMeta sid with
  | none => (none, st)
  | some m =>
    if now - m.createdAt > connectionTimeout then
      (none, { st with stmtMeta := aErase st.stmtMeta sid })
    else
      let m' := { m with lastUsed := now }
      (some m', { st with stmtMeta := aInsert st.stmtMeta sid m' })

/-! ## Restoration -/

/-- `_restore_connection_from_metadata`: parse the recorded DSN, decrypt the stored
credential, reconnect.  `tok` is the token of the would-be live connection;
`none` models any raised exception (stale record). -/
def restore_connection_from_metadata (env : Env) (m : ConnMeta) (tok : Nat) : Option Nat :=
  match parse_oracle_dsn m.dsn with
  | .error _ => none
  | .ok _ =>
    if m.authMode = "kerberos" then
      if env.kerberosOk m.dsn m.username then some tok else none
    else
      if env.connectOk m.dsn m.username (simple_decrypt m.password) then some tok else none

/-- The in-memory dict the restore paths insert — note it carries no `auth_mode` key. -/
def restoredConnInfo (m : ConnMeta) (tok : Nat) : ConnInfo :=
  { conn := tok, type := m.type, dsn := m.dsn, username := m.username, authMode := none,
    autocommit := m.autocommit, raiseError := m.raiseError, printError := m.printError }

/-- `_ensure_connection_available`: in-memory handles are used directly; otherwise a
missing/expired record is the terminal invalid-id error, a failed reconnect deletes
the record and is the distinguishable restore-failed error, and a successful
reconnect is inserted into memory. -/
def ensure_connection_available (env : Env) (st : DbState) (now : Nat) (cid : String)
    (tok : Nat) : Except String Unit × DbState :=
  if (alookup st.connections cid).isSome then (.ok (), st)
  else
    match load_connection_metadata st now cid with
    | (none, st1) => (.error "Invalid connection ID", st1)
    | (some m, st1) =>
      match restore_connection_from_metadata env m tok with
      | none =>
        (.error "Failed to restore connection - credentials may have changed",
         { st1 with connMeta := aErase st1.connMeta cid })
      | some t =>
        (.ok (), { st1 with connections := aInsert st1.connections cid (restoredConnInfo m t) })

/-- The restored in-memory statement: fresh unexecuted cursor, saved pending row
re-attached. -/
def restoredStmt (m : StmtMeta) : StmtInfo :=
  { connectionId := m.connectionId, sql := m.sql, cursor := none,
    executed := false, finished := false, peekedRow := m.peekedRow }

/-- `_restore_statement_from_metadata`: restore the owning connection first if it is
not in memory (via its own durable record), then rebuild the statement dict. -/
def restore_statement_from_metadata (env : Env) (st : DbState) (now : Nat) (m : StmtMeta)
    (tok : Nat) : Option StmtInfo × DbState :=
  let cid := m.connectionId
  if (alookup st.connections cid).isSome then (some (restoredStmt m), st)
  else
    match load_connection_metadata st now cid with
    | (none, st1) => (none, st1)
    | (some cm, st1) =>
      match restore_connection_from_metadata env cm tok with
      | none => (none, st1)
      | some t =>
        (some (restoredStmt m),
         { st1 with connections := aInsert st1.connections cid (restoredConnInfo cm t) })

/-- The statement-restore block shared verbatim by `execute_statement`, `fetch_row`
and `fetch_all`: returns `true` when the statement had to be restored from its
durable record. -/
def ensure_statement_in_memory (env : Env) (st : DbState) (now : Nat) (sid : String)
    (tok : Nat) : Except String Bool × DbState :=
  if (alookup st.statements sid).isSome then (.ok false, st)
  else
    match load_statement_metadata st now sid with
    | (none, st1) => (.error "Invalid statement ID", st1)
    | (some m, st1) =>
      match restore_statement_from_metadata env st1 now m tok with
      | (none, st2) =>
        (.error "Failed to restore statement - connection may have expired",
         { st2 with stmtMeta := aErase st2.stmtMeta sid })
      | (some stmt, st2) =>
        (.ok true, { st2 with statements := aInsert st2.statements sid stmt })

/-! ## prepare / execute / fetch / disconnect -/

/-- `prepare` (its connection-restore preamble is byte-identical to
`_ensure_connection_available`, which the model therefore reuses). -/
def prepare (env : Env) (st : DbState) (now : Nat) (cid : String) (sql : String)
    (tok : Nat) (newSid : String) : Except String String × DbState :=
  match ensure_connection_available env st now cid tok with
  | (.error e, st1) => (.error e, st1)
  | (.ok _, st1) =>
    let stmt : StmtInfo :=
      { connectionId := cid, sql := convert_placeholders_to_oracle sql, cursor := none,
        executed := false, finished := false, peekedRow := none }
    let st2 := { st1 with statements := aInsert st1.statements newSid stmt }
    (.ok newSid, save_statement_metadata st2 now newSid stmt)

/-- `execute_statement`, for the flows the claims exercise (no bind values, no
OUT-parameter bindings; `out_params` is empty in every modelled flow).  `tok` / `tok2`
are the fresh connection tokens a connection restore (resp. a restore inside the
statement restore) would create.  The returned `Int` is `rows_affected`. -/
def execute_statement (env : Env) (st : DbState) (now : Nat) (cid sid : String)
    (tok tok2 : Nat) : Except String Int × DbState :=
  match ensure_connection_available env st now cid tok with
  | (.error e, st1) => (.error e, st1)
  | (.ok _, st1) =>
    match ensure_statement_in_memory env st1 now sid tok2 with
    | (.error e, st2) => (.error e, st2)
    | (.ok _, st2) =>
      match alookup st2.connections cid, alookup st2.statements sid with
      | some _, some stmt =>
        if ¬ env.execOk stmt.sql then
          -- the driver raised inside `cursor.execute`; the statement keeps the fresh
          -- unexecuted cursor assigned just before
          let stmt' := { stmt with cursor := some { rows := [], descAvail := false } }
          (.error "execution failed",
           { st2 with statements := aInsert st2.statements sid stmt' })
        else
          let cursor0 : CursorState :=
            { rows := env.query stmt.sql, descAvail := env.descReady stmt.sql }
          let stmt1 := { stmt with cursor := some cursor0, executed := true }
          let isSelect := startsWithStr (upperString (stripString stmt.sql)) "SELECT"
          if isSelect then
            if cursor0.descAvail then
              let st3 := { st2 with statements := aInsert st2.statements sid stmt1 }
              (.ok (env.rowcount stmt.sql), save_statement_metadata st3 now sid stmt1)
            else
              -- description missing: probe one row to populate it
              match cursor0.rows with
              | [] =>
                let st3 := { st2 with statements := aInsert st2.statements sid stmt1 }
                (.ok 0, save_statement_metadata st3 now sid stmt1)
              | r :: rs =>
                if env.descAfterFetch stmt.sql then
                  let cur2 : CursorState := { rows := rs, descAvail := true }
                  let stmt2 := { stmt1 with cursor := some cur2, peekedRow := some r }
                  let st3 := { st2 with statements := aInsert st2.statements sid stmt2 }
                  (.ok 1, save_statement_metadata st3 now sid stmt2)
                else
                  -- description still missing after the probe: the row is dropped
                  let stmt2 := { stmt1 with cursor := some { rows := rs, descAvail := false } }
                  let st3 := { st2 with statements := aInsert st2.statements sid stmt2 }
                  (.ok 0, save_statement_metadata st3 now sid stmt2)
          else
            let st3 := { st2 with statements := aInsert st2.statements sid stmt1 }
            (.ok (env.rowcount stmt.sql), save_statement_metadata st3 now sid stmt1)
      | _, _ => (.error "KeyError", st2)

/-- Outcome of `fetch_row`: `{'success': True, 'row': r}`, the bare
`{'success': False}` of an exhausted result set, or `{'success': False, 'error': e}`. -/
inductive FetchRes where
  | row (r : List Int)
  | exhausted
  | failure (msg : String)
deriving DecidableEq, Repr

/-- The fetch logic of `fetch_row` after the statement is in memory: the pending row,
if any, is returned and the slot cleared without touching the cursor; otherwise one
row is pulled from the cursor, and a `None` row marks the statement finished. -/
def fetch_row_core (st : DbState) (sid : String) : FetchRes × DbState :=
  match alookup st.statements sid with
  | none => (.failure "KeyError", st)
  | some stmt =>
    if ¬ stmt.executed then (.failure "Statement not executed", st)
    else if stmt.finished then (.exhausted, st)
    else
      match stmt.peekedRow with
      | some r =>
        (.row r,
         { st with statements := aInsert st.statements sid ({ stmt with peekedRow := none }) })
      | none =>
        let pulled : Option (List Int) × Option CursorState :=
          match stmt.cursor with
          | none => (none, none)
          | some cur =>
            match cur.rows with
            | [] => (none, some cur)
            | r :: rs => (some r, some { cur with rows := rs })
        match pulled with
        | (none, cur') =>
          let stmt' := { stmt with cursor := cur', finished := true }
          (.exhausted, { st with statements := aInsert st.statements sid stmt' })
        | (some r, cur') =>
          (.row r,
           { st with statements := aInsert st.statements sid ({ stmt with cursor := cur' }) })

/-- `fetch_row` (array format).  A statement restored from its durable record is
automatically re-executed on a fresh cursor — replaying the full result set — and the
saved pending row is kept attached. -/
def fetch_row (env : Env) (st : DbState) (now : Nat) (cid sid : String) (tok : Nat) :
    FetchRes × DbState :=
  match ensure_statement_in_memory env st now sid tok with
  | (.error e, st1) => (.failure e, st1)
  | (.ok restored, st1) =>
    if restored then
      match alookup st1.statements sid with
      | none => (.failure "KeyError", st1)
      | some stmt =>
        if (alookup st1.connections stmt.connectionId).isNone then
          (.failure "Connection lost during statement restoration", st1)
        else if ¬ env.execOk stmt.sql then
          (.failure "Failed to re-execute restored statement", st1)
        else
          let cursor : CursorState :=
            { rows := env.query stmt.sql, descAvail := env.descReady stmt.sql }
          let stmt' := { stmt with cursor := some cursor, executed := true }
          fetch_row_core { st1 with statements := aInsert st1.statements sid stmt' } sid
    else
      fetch_row_core st1 sid

/-- Repeated `fetch_row` calls (bounded by fuel), collecting rows until the first
non-row outcome — the row sequence a caller observes. -/
def fetch_rows_upto (env : Env) (now : Nat) (cid sid : String) (tok : Nat) :
    Nat → DbState → List (List Int) × DbState
  | 0, st => ([], st)
  | n + 1, st =>
    match fetch_row env st now cid sid tok with
    | (.row r, st1) =>
      let (rs, st2) := fetch_rows_upto env now cid sid tok n st1
      (r :: rs, st2)
    | (_, st1) => ([], st1)

/-- `disconnect`: close and drop the in-memory connection, collect the ids of the
in-memory statements owned by it, `del` each of them and its durable record, then
drop the connection's own durable record. -/
def disconnect (st : DbState) (cid : String) : Except String Unit × DbState :=
  let connections' :=
    if (alookup st.connections cid).isSome then aErase st.connections cid
    else st.connections
  let sidsToRemove := (st.statements.filter (fun p => p.2.connectionId == cid)).map (·.1)
  (.ok (),
   { connections := connections',
     statements := st.statements.filter (fun p => !(sidsToRemove.contains p.1)),
     connMeta := aErase st.connMeta cid,
     stmtMeta := st.stmtMeta.filter (fun p => !(sidsToRemove.contains p.1)),
     cache := st.cache })

/-! ## Connection cache -/

/-- Stable ascending insertion by `last_used` (Python's `sorted` is stable). -/
def insertByLastUsed (x : String × CacheEntry) :
    List (String × CacheEntry) → List (String × CacheEntry)
  | [] => [x]
  | y :: ys =>
    if x.2.lastUsed < y.2.lastUsed then x :: y :: ys else y :: insertByLastUsed x ys

def sortByLastUsed (l : List (String × CacheEntry)) : List (String × CacheEntry) :=
  l.foldl (fun acc x => insertByLastUsed x acc) []

/-- `_cleanup_stale_cache_entries`: drop entries idle past the timeout or failing the
liveness probe (removing their `_connections` entry too), then evict
least-recently-used entries beyond `_CACHE_MAX_SIZE`. -/
def cleanup_stale_cache_entries (env : Env) (st : DbState) (now : Nat) : DbState :=
  let keysToRemove := (st.cache.filter (fun p =>
      decide (now - p.2.lastUsed > cacheIdleTimeout) || !(env.alive p.2.connection.conn))).map (·.1)
  let removedConnIds :=
    (st.cache.filter (fun p => keysToRemove.contains p.1)).map (·.2.connectionId)
  let st1 :=
    { st with
      cache := st.cache.filter (fun p => !(keysToRemove.contains p.1)),
      connections := st.connections.filter (fun p => !(removedConnIds.contains p.1)) }
  if st1.cache.length > cacheMaxSize then
    let evicted := (sortByLastUsed st1.cache).take (st1.cache.length - cacheMaxSize)
    let evictKeys := evicted.map (·.1)
    let evictConnIds := evicted.map (·.2.connectionId)
    { st1 with
      cache := st1.cache.filter (fun p => !(evictKeys.contains p.1)),
      connections := st1.connections.filter (fun p => !(evictConnIds.contains p.1)) }
  else st1

/-- `connect`: auto-detect the auth mode from the Kerberos environment, handle the
`user@TNS` pattern, parse the DSN, connect through the driver, insert the in-memory
entry and write the durable record.  `newCid` is the fresh uuid4, `tok` the fresh
live-connection token. -/
def connect (env : Env) (st : DbState) (now : Nat) (dsn username : String)
    (password : List Nat) (options : Option DbOptions) (authMode : String)
    (newCid : String) (tok : Nat) : Except String String × DbState :=
  let actualAuthMode :=
    if authMode = "auto" then (if env.krb5EnvSet then "kerberos" else "password")
    else authMode
  let userDsn :=
    match splitOnceAfter username '@' with
    | some (u, tns) =>
      if dsn = "dbi:Oracle:" ∨ dsn = "dbi:Oracle" ∨ dsn = "dbi:Ora:" ∨ dsn = "dbi:Ora" then
        (u, tns)
      else (u, dsn)
    | none => (username, dsn)
  match parse_oracle_dsn userDsn.2 with
  | .error e => (.error e, st)
  | .ok _ =>
    let ok :=
      if actualAuthMode = "kerberos" then env.kerberosOk userDsn.2 userDsn.1
      else env.connectOk userDsn.2 userDsn.1 password
    if ¬ ok then (.error "connection failed", st)
    else
      let c : ConnInfo :=
        { conn := tok, type := "oracle", dsn := userDsn.2, username := userDsn.1,
          authMode := some actualAuthMode, autocommit := optAutoCommit options,
          raiseError := optRaiseError options, printError := optPrintError options }
      let st1 := { st with connections := aInsert st.connections newCid c }
      (.ok newCid,
       save_connection_metadata st1 now newCid c
         (if actualAuthMode = "password" then password else []) actualAuthMode)

/-- Result of `connect_cached`: the connection id and whether it was served from the
cache. -/
structure CachedResult where
  connectionId : String
  cached : Bool
deriving DecidableEq, Repr

/-- The cache-miss tail of `connect_cached`: perform a normal `connect` and insert
the result into the cache under `key`. -/
def connect_cached_new (env : Env) (st : DbState) (now : Nat) (dsn username : String)
    (password : List Nat) (options : Option DbOptions) (newCid : String) (tok : Nat)
    (key : String) : Except String CachedResult × DbState :=
  match connect env st now dsn username password options "auto" newCid tok with
  | (.error e, st1) => (.error e, st1)
  | (.ok cid, st1) =>
    match alookup st1.connections cid with
    | none => (.error "KeyError", st1)
    | some cinfo =>
      let entry : CacheEntry :=
        { connectionId := cid, connection := cinfo, createdAt := now, lastUsed := now,
          dsn := dsn, username := username, options := options, cacheKey := key }
      (.ok { connectionId := cid, cached := false },
       { st1 with cache := aInsert st1.cache key entry })

/-- `connect_cached`: purge stale entries, compute the password-free cache key, serve
a live hit (refreshing `last_used`), drop a dead hit, otherwise connect anew. -/
def connect_cached (env : Env) (st : DbState) (now : Nat) (dsn username : String)
    (password : List Nat) (options : Option DbOptions) (newCid : String) (tok : Nat) :
    Except String CachedResult × DbState :=
  let st1 := cleanup_stale_cache_entries env st now
  match make_cache_key dsn username options with
  | .error e => (.error e, st1)
  | .ok key =>
    match alookup st1.cache key with
    | some entry =>
      if env.alive entry.connection.conn then
        let entry' := { entry with lastUsed := now }
        (.ok { connectionId := entry.connectionId, cached := true },
         { st1 with cache := aInsert st1.cache key entry' })
      else
        let st2 :=
          { st1 with
            cache := aErase st1.cache key,
            connections := aErase st1.connections entry.connectionId }
        connect_cached_new env st2 now dsn username password options newCid tok key
    | none => connect_cached_new env st1 now dsn username password options newCid tok key

/-! ## Daemon request model (`cpan_daemon.py`)

A request is `{module, function, params, request_id}` (the four fields every
modelled request carries; `timestamp`/`perl_caller`/`client_version` are optional in
the schema and absent in every modelled flow).  `params` is a JSON value.
-/

/-- JSON values, as carried by `params`. -/
inductive Value where
  | str (s : String)
  | num (n : Int)
  | bool (b : Bool)
  | null
  | arr (elems : List Value)
  | obj (fields : List (String × Value))

structure Req where
  module : String
  function : String
  params : Value
  requestId : String

/-- The validation limits, configured from the environment with these defaults. -/
structure ValidationCfg where
  maxStringLength : Nat := 10000
  maxArrayLength : Nat := 1000
  maxObjectDepth : Nat := 10
  maxParamCount : Nat := 100
deriving DecidableEq, Repr

/-- `[\x00-\x1f\x7f-\x9f]` — the control characters stripped from strings. -/
def isCtlChar (c : Char) : Bool :=
  c.val ≤ 31 || (127 ≤ c.val && c.val ≤ 159)

def stripControlChars (s : String) : String :=
  String.mk (s.toList.filter (fun c => !(isCtlChar c)))

/-! ### `RequestValidator._sanitize_value`

A recursive walk: strings are truncated to `maxStringLength` and then
control-character-stripped; arrays are truncated to `maxArrayLength` and walked;
dicts are walked.  Each truncation appends a warning.  The walk carries no depth
argument and consults `maxObjectDepth` nowhere. -/

mutual

def sanitizeValue (cfg : ValidationCfg) (v : Value) (warnings : List String)
    (path : String) : Value × List String :=
  match v with
  | .str s =>
    let (s1, w1) :=
      if s.length > cfg.maxStringLength then
        (s.take cfg.maxStringLength,
         warnings ++ ["String truncated at " ++ path ++ ": " ++ toString s.length
           ++ " > " ++ toString cfg.maxStringLength])
      else (s, warnings)
    (.str (stripControlChars s1), w1)
  | .obj fields =>
    let (fs, w) := sanitizeObj cfg fields warnings path
    (.obj fs, w)
  | .arr elems =>
    let w1 :=
      if elems.length > cfg.maxArrayLength then
        warnings ++ ["Array truncated at " ++ path ++ ": " ++ toString elems.length
          ++ " > " ++ toString cfg.maxArrayLength]
      else warnings
    let (es, w2) := sanitizeArr cfg elems cfg.maxArrayLength w1 path 0
    (.arr es, w2)
  | .num n => (.num n, warnings)
  | .bool b => (.bool b, warnings)
  | .null => (.null, warnings)

def sanitizeObj (cfg : ValidationCfg) (fields : List (String × Value))
    (warnings : List String) (path : String) : List (String × Value) × List String :=
  match fields with
  | [] => ([], warnings)
  | (k, v) :: rest =>
    let (v', w1) := sanitizeValue cfg v warnings (path ++ "." ++ k)
    let (rest', w2) := sanitizeObj cfg rest w1 path
    ((k, v') :: rest', w2)

/-- Walks at most `remaining` elements: `value[:MAX_ARRAY_LENGTH]` truncates before
the per-element walk, so dropped elements are never visited. -/
def sanitizeArr (cfg : ValidationCfg) (elems : List Value) (remaining : Nat)
    (warnings : List String) (path : String) (i : Nat) : List Value × List String :=
  match elems, remaining with
  | [], _ => ([], warnings)
  | _ :: _, 0 => ([], warnings)
  | v :: rest, n + 1 =>
    let (v', w1) := sanitizeValue cfg v warnings (path ++ "[" ++ toString i ++ "]")
    let (rest', w2) := sanitizeArr cfg rest n w1 path (i + 1)
    (v' :: rest', w2)

end

/-- `RequestValidator._sanitize_request`: every top-level request entry goes through
`_sanitize_value` under its key as path. -/
def sanitizeRequest (cfg : ValidationCfg) (r : Req) (warnings : List String) :
    Req × List String :=
  let valueStr : Value → String := fun v => match v with | .str s => s | _ => ""
  let (m, w1) := sanitizeValue cfg (.str r.module) warnings "module"
  let (f, w2) := sanitizeValue cfg (.str r.function) w1 "function"
  let (p, w3) := sanitizeValue cfg r.params w2 "params"
  let (rid, w4) := sanitizeValue cfg (.str r.requestId) w3 "request_id"
  ({ module := valueStr m, function := valueStr f, params := p, requestId := valueStr rid },
   w4)

mutual

/-- Nesting depth of a JSON value (a scalar has depth 0). -/
def valueDepth : Value → Nat
  | .arr elems => 1 + valueListDepth elems
  | .obj fields => 1 + valueFieldsDepth fields
  | .str _ => 0
  | .num _ => 0
  | .bool _ => 0
  | .null => 0

def valueListDepth : List Value → Nat
  | [] => 0
  | v :: rest => max (valueDepth v) (valueListDepth rest)

def valueFieldsDepth : List (String × Value) → Nat
  | [] => 0
  | (_, v) :: rest => max (valueDepth v) (valueFieldsDepth rest)

end

/-! ### Serialization (`json.dumps(request)`) for the security scan

Default `json.dumps`: `", "` / `": "` separators, `ensure_ascii`; quotes,
backslashes, controls and non-ASCII characters are escaped (code points above the
BMP would use surrogate pairs; no modelled flow contains them).  The serialized dict
order is the request's field order: module, function, params, request_id. -/

def lbraceChar : Char := Char.ofNat 123
def rbraceChar : Char := Char.ofNat 125

def hexCharOf (d : Nat) : Char := Char.ofNat (hexDigitOf d)

def jsonEscapeChar (c : Char) : List Char :=
  if c = '"' then ['\\', '"']
  else if c = '\\' then ['\\', '\\']
  else if c = '\n' then ['\\', 'n']
  else if c = '\t' then ['\\', 't']
  else if c = '\r' then ['\\', 'r']
  else if c.val = 8 then ['\\', 'b']
  else if c.val = 12 then ['\\', 'f']
  else if c.val < 32 || c.val > 126 then
    ['\\', 'u', hexCharOf (c.val.toNat / 4096 % 16), hexCharOf (c.val.toNat / 256 % 16),
     hexCharOf (c.val.toNat / 16 % 16), hexCharOf (c.val.toNat % 16)]
  else [c]

def jsonStrChars (s : String) : List Char :=
  '"' :: (s.toList.flatMap jsonEscapeChar) ++ ['"']

mutual

def serializeValue : Value → List Char
  | .str s => jsonStrChars s
  | .num n => (toString n).toList
  | .bool b => if b then "true".toList else "false".toList
  | .null => "null".toList
  | .arr es => '[' :: serializeArrElems es ++ [']']
  | .obj fs => lbraceChar :: serializeObjFields fs ++ [rbraceChar]

def serializeArrElems : List Value → List Char
  | [] => []
  | [v] => serializeValue v
  | v :: rest => serializeValue v ++ (',' :: ' ' :: serializeArrElems rest)

def serializeObjFields : List (String × Value) → List Char
  | [] => []
  | [(k, v)] => jsonStrChars k ++ (':' :: ' ' :: serializeValue v)
  | (k, v) :: rest =>
    jsonStrChars k ++ (':' :: ' ' :: serializeValue v) ++ (',' :: ' ' :: serializeObjFields rest)

end

def serializeRequest (r : Req) : List Char :=
  serializeValue (.obj [("module", .str r.module), ("function", .str r.function),
    ("params", r.params), ("request_id", .str r.requestId)])

/-! ### The injection-pattern matchers (`security_patterns["injection_patterns"]`)

Each regex is implemented directly over the (lower-cased, matching `re.IGNORECASE`)
serialized request.  `.` does not match a newline. -/

def containsSeq (needle : List Char) : List Char → Bool
  | [] => needle.isEmpty
  | c :: rest => startsWithSeq (c :: rest) needle || containsSeq needle rest

/-- `[\x00-\x1f\x7f-\x9f]` -/
def hasControlChar (hay : List Char) : Bool := hay.any isCtlChar

/-- `<script[^>]*>` -/
def hasScriptTag : List Char → Bool
  | [] => false
  | c :: rest =>
    (startsWithSeq (c :: rest) ("<script".toList)
      && (((c :: rest).drop 7).takeWhile (fun d => d ≠ '>') ≠ (c :: rest).drop 7))
    || hasScriptTag rest

/-- `javascript:` -/
def hasJavascriptProto (hay : List Char) : Bool := containsSeq ("javascript:".toList) hay

def isWordChar (c : Char) : Bool := c.isAlphanum || c = '_'

def isSpaceChar (c : Char) : Bool := isPySpace c

/-- `on\w+\s*=` at the current position. -/
def eventHandlerAt (l : List Char) : Bool :=
  match l with
  | 'o' :: 'n' :: c :: cs =>
    if isWordChar c then
      match (cs.dropWhile isWordChar).dropWhile isSpaceChar with
      | '=' :: _ => true
      | _ => false
    else false
  | _ => false

def hasEventHandler : List Char → Bool
  | [] => false
  | c :: rest => eventHandlerAt (c :: rest) || hasEventHandler rest

/-- Is there a closing brace before the end of the line? (`.*` does not cross `\n`.) -/
def closedBeforeNewline (close : Char) : List Char → Bool
  | [] => false
  | c :: rest =>
    if c = close then true else if c = '\n' then false else closedBeforeNewline close rest

/-- `\$\{.*\}` (and with `first := '#'`, `\#\{.*\}`). -/
def hasInterpolation (first : Char) : List Char → Bool
  | [] => false
  | c :: rest =>
    (c = first && (match rest with
      | d :: ds => d = lbraceChar && closedBeforeNewline rbraceChar ds
      | [] => false))
    || hasInterpolation first rest

/-- `\.\./` -/
def hasPathTraversal (hay : List Char) : Bool := containsSeq ("../".toList) hay

/-- after an opening `\\`, a second `\\` before the end of the line -/
def uncTail : List Char → Bool
  | [] => false
  | c :: rest =>
    if c = '\n' then false
    else
      (match c :: rest with
        | '\\' :: '\\' :: _ => true
        | _ => false)
      || uncTail rest

/-- `\\\\.*\\\\` -/
def hasUncPath : List Char → Bool
  | [] => false
  | c :: rest =>
    (match c :: rest with
      | '\\' :: '\\' :: rest2 => uncTail rest2
      | _ => false)
    || hasUncPath rest

/-- Does some injection pattern match the serialized request? -/
def injectionHit (hay : List Char) : Bool :=
  hasControlChar hay || hasScriptTag hay || hasJavascriptProto hay || hasEventHandler hay
    || hasInterpolation '$' hay || hasInterpolation '#' hay || hasPathTraversal hay
    || hasUncPath hay

/-! ### Whitelists and validation pipeline -/

def dangerous_functions : List String :=
  ["eval", "exec", "compile", "__import__", "open", "file",
   "subprocess", "os", "sys", "globals", "locals", "vars",
   "input", "raw_input", "execfile", "reload"]

def exempt_modules : List String :=
  ["system", "test", "file_helper", "db_helper", "email_helper",
   "xml_helper", "json_helper", "string_helper", "date_helper",
   "datetime_helper", "http_helper", "sftp_helper", "logging_helper",
   "excel_helper", "crypto_helper", "xpath_helper"]

def suspicious_strings : List String :=
  ["DROP TABLE", "DELETE FROM", "UPDATE SET", "INSERT INTO",
   "UNION SELECT", "OR 1=1", "AND 1=1", "' OR '", "\" OR \"",
   "--", "/*", "*/", "xp_", "sp_", "ALTER TABLE"]

/-- `RequestValidator._load_module_whitelist`. -/
def module_whitelist : List (String × List String) :=
  [("database", ["connect", "disconnect", "execute_statement", "fetch_row", "fetch_all",
                 "prepare", "finish_statement", "begin_transaction", "commit", "rollback"]),
   ("xml_helper", ["xml_in", "xml_out", "escape_xml", "unescape_xml"]),
   ("xpath", ["new", "find", "findnodes", "findvalue", "exists"]),
   ("http", ["lwp_request", "get", "post", "put", "delete", "head"]),
   ("datetime_helper", ["format_date", "parse_date", "add_days", "diff_days", "now"]),
   ("crypto", ["encrypt", "decrypt", "hash", "generate_key", "sign", "verify"]),
   ("email_helper", ["send_email", "send_html_email", "validate_email"]),
   ("logging_helper", ["log_message", "log_error", "log_warning", "log_debug"]),
   ("excel", ["create_workbook", "add_worksheet", "write_cell", "save_workbook"]),
   ("sftp", ["connect", "put", "get", "delete", "list_files", "disconnect"]),
   ("test", ["ping", "health", "stats", "echo"]),
   ("system", ["info", "shutdown", "health", "stats", "performance", "connections",
               "cleanup", "metrics"])]

/-- Is `(module, function)` in the static whitelist registry? -/
def whitelistedPair (m f : String) : Bool :=
  match alookup module_whitelist m with
  | some fns => fns.contains f
  | none => false

structure SecEvent where
  eventType : String
  severity : String
deriving DecidableEq, Repr

structure VRes where
  isValid : Bool := true
  errors : List String := []
  warnings : List String := []
  sanitizedRequest : Option Req := none
  securityEvents : List SecEvent := []

/-- `_validate_structure`: the required fields are present by construction of `Req`;
a modelled request dict has exactly four entries. -/
def validateStructure (cfg : ValidationCfg) (_r : Req) (res : VRes) : VRes :=
  if 4 > cfg.maxParamCount then
    { res with
      isValid := false,
      errors := res.errors ++ ["Too many parameters: 4 (max: " ++ toString cfg.maxParamCount ++ ")"] }
  else res

/-- `^[a-zA-Z][a-zA-Z0-9_]*$` -/
def matchesIdentPattern (s : String) : Bool :=
  match s.toList with
  | [] => false
  | c :: rest => c.isAlpha && rest.all (fun d => d.isAlphanum || d = '_')

/-- Per-property string checks of `_validate_against_schema`: `maxLength` first,
then `pattern`. -/
def schemaStringErrs (s path : String) (maxLen : Nat) (withPattern : Bool)
    (res : VRes) : VRes :=
  let res1 :=
    if s.length > maxLen then
      { res with
        isValid := false,
        errors := res.errors ++ ["String too long at " ++ path ++ ": "
          ++ toString s.length ++ " > " ++ toString maxLen] }
    else res
  if withPattern ∧ ¬ matchesIdentPattern s then
    { res1 with
      isValid := false,
      errors := res1.errors ++ ["String pattern mismatch at " ++ path] }
  else res1

/-- `_validate_schema`: the `system` schema (selected for modules `system`/`test`)
constrains `module` only to the enum `["system","test"]`, satisfied by selection;
the default schema checks `module` against length 50 and the identifier pattern.
`function` and `request_id` checks are shared; `params` admits every JSON type. -/
def validateSchema (r : Req) (res : VRes) : VRes :=
  if r.module = "system" ∨ r.module = "test" then
    let res1 := schemaStringErrs r.function ".function" 100 true res
    schemaStringErrs r.requestId ".request_id" 100 false res1
  else
    let res1 := schemaStringErrs r.module ".module" 50 true res
    let res2 := schemaStringErrs r.function ".function" 100 true res1
    schemaStringErrs r.requestId ".request_id" 100 false res2

/-- `_validate_security`: the injection scan rejects with a `critical` event; a
dangerous name in a non-exempt module rejects with an `error` event per match; the
SQL-suggestive substrings only append warnings and `warning` events. -/
def validateSecurity (r : Req) (res : VRes) : VRes :=
  let hay := (serializeRequest r).map Char.toLower
  let res1 :=
    if injectionHit hay then
      { res with
        isValid := false,
        errors := res.errors ++ ["Potential injection attack detected"],
        securityEvents := res.securityEvents
          ++ [{ eventType := "injection_attempt", severity := "critical" }] }
    else res
  let res2 :=
    if exempt_modules.contains r.module then res1
    else
      dangerous_functions.foldl (fun acc dang =>
        if containsSeq dang.toList (lowerString r.function).toList
            || containsSeq dang.toList (lowerString r.module).toList then
          { acc with
            isValid := false,
            errors := acc.errors ++ ["Dangerous function/module name detected: " ++ dang],
            securityEvents := acc.securityEvents
              ++ [{ eventType := "dangerous_function", severity := "error" }] }
        else acc) res1
  suspicious_strings.foldl (fun acc pat =>
    if containsSeq (lowerString pat).toList hay then
      { acc with
        warnings := acc.warnings ++ ["Suspicious string pattern detected: " ++ pat],
        securityEvents := acc.securityEvents
          ++ [{ eventType := "suspicious_content", severity := "warning" }] }
    else acc) res2

/-- `_validate_whitelist`: unknown module → `unauthorized_module`; known module with
an unlisted function → `unauthorized_function`; both are `error` events. -/
def validateWhitelist (r : Req) (res : VRes) : VRes :=
  match alookup module_whitelist r.module with
  | none =>
    { res with
      isValid := false,
      errors := res.errors ++ ["Module not allowed: " ++ r.module],
      securityEvents := res.securityEvents
        ++ [{ eventType := "unauthorized_module", severity := "error" }] }
  | some fns =>
    if ¬ fns.contains r.function then
      { res with
        isValid := false,
        errors := res.errors ++ ["Function not allowed: " ++ r.module ++ "." ++ r.function],
        securityEvents := res.securityEvents
          ++ [{ eventType := "unauthorized_function", severity := "error" }] }
    else res

/-- Steps 1–3 of `RequestValidator.validate_request` (structure, schema, security),
each gated on the result still being valid. -/
def validateSteps123 (cfg : ValidationCfg) (r : Req) : VRes :=
  let res := validateStructure cfg r {}
  let res := if res.isValid then validateSchema r res else res
  if res.isValid then validateSecurity r res else res

/-- `RequestValidator.validate_request`: the five-step short-circuiting pipeline. -/
def validate_request (cfg : ValidationCfg) (r : Req) : VRes :=
  let res := validateSteps123 cfg r
  let res :=
    if res.isValid then
      let (r', w) := sanitizeRequest cfg r res.warnings
      { res with warnings := w, sanitizedRequest := some r' }
    else res
  if res.isValid then validateWhitelist r res else res

/-- A daemon response, abstracted to whether a handler was dispatched. -/
inductive Response where
  | handled (module function : String)
  | validationError (errors : List String)
deriving DecidableEq, Repr

/-- `_handle_client`: an invalid request raises before `_route_request`, so dispatch
happens only for validated requests (routing the sanitized request). -/
def handle_client (cfg : ValidationCfg) (r : Req) : Response :=
  let vr := validate_request cfg r
  if vr.isValid then
    let sr := vr.sanitizedRequest.getD r
    .handled sr.module sr.function
  else .validationError vr.errors

/-! ## Resource governor (`ResourceManager`) -/

/-- Limits, configured from the environment with these defaults. -/
structure ResourceCfg where
  maxMemoryMb : ℚ := 1024
  maxCpuPercent : ℚ := 200
  maxRequestsPerMinute : Nat := 1000
  maxConcurrentRequests : Nat := 50
deriving DecidableEq, Repr

/-- The mutable counters of `ResourceManager` (peaks and alert counts elided). -/
structure RMState where
  requestTimestamps : List Nat := []
  concurrentRequests : Nat := 0
deriving DecidableEq, Repr

/-- `ResourceManager.track_request`. -/
def track_request (now : Nat) (rm : RMState) : RMState :=
  { requestTimestamps := rm.requestTimestamps ++ [now],
    concurrentRequests := rm.concurrentRequests + 1 }

/-- `ResourceManager.complete_request` — `max(0, c - 1)` is truncated subtraction
on `ℕ`. -/
def complete_request (rm : RMState) : RMState :=
  { rm with concurrentRequests := rm.concurrentRequests - 1 }

/-- The effect of one full `_handle_client` run on the resource manager:
`track_request` is called once (after the resource check); `complete_request` is
called on no path — neither after `_route_request` returns, nor in the `except`
branch, nor in the `finally` block (which only closes the socket).  `raised` records
whether the handler raised; it makes no difference to the counter. -/
def handle_client_counter (now : Nat) (_raised : Bool) (rm : RMState) : RMState :=
  track_request now rm

inductive RMetric where
  | memory | cpu | rate | concurrent
deriving DecidableEq, Repr

/-- Classification result of `check_resource_limits`, with each violation/warning
message abstracted to the metric category it reports. -/
structure ResourceStatus where
  violations : List RMetric
  warnings : List RMetric
deriving DecidableEq, Repr

/-- `ResourceManager.check_resource_limits`: memory and CPU are checked against the
hard limit and — `elif` — against the 80% threshold; the request rate over the
sliding 60-second window and the concurrent-request count are checked against their
hard limits only.  (`memMb`/`cpuPct` are the sampled process values; the source also
prunes the timestamp window and updates peak gauges, not modelled here.) -/
def check_resource_limits (cfg : ResourceCfg) (memMb cpuPct : ℚ) (rm : RMState)
    (now : Nat) : ResourceStatus :=
  let requestsPerMinute := (rm.requestTimestamps.filter (fun ts => now < ts + 60)).length
  let mem : List RMetric × List RMetric :=
    if memMb > cfg.maxMemoryMb then ([.memory], [])
    else if memMb > cfg.maxMemoryMb * (4 / 5) then ([], [.memory])
    else ([], [])
  let cpu : List RMetric × List RMetric :=
    if cpuPct > cfg.maxCpuPercent then ([.cpu], [])
    else if cpuPct > cfg.maxCpuPercent * (4 / 5) then ([], [.cpu])
    else ([], [])
  let rateV : List RMetric :=
    if requestsPerMinute > cfg.maxRequestsPerMinute then [.rate] else []
  let concV : List RMetric :=
    if rm.concurrentRequests > cfg.maxConcurrentRequests then [.concurrent] else []
  { violations := mem.1 ++ cpu.1 ++ rateV ++ concV,
    warnings := mem.2 ++ cpu.2 }

/-! ## Concrete instances used by the theorems -/

/-- A driver model: a two-row result set whose shape requires probing
(`cursor.description` is empty until a row is pulled), healthy connections. -/
def exEnv : Env :=
  { query := fun _ => [[1], [2]], execOk := fun _ => true, descReady := fun _ => false,
    descAfterFetch := fun _ => true, connectOk := fun _ _ _ => true,
    kerberosOk := fun _ _ => false, krb5EnvSet := false, alive := fun _ => true,
    rowcount := fun _ => 0 }

def emptyDb : DbState :=
  { connections := [], statements := [], connMeta := [], stmtMeta := [], cache := [] }

/-- State after `connect` (id `c1`, password `"p"`). -/
def exStA : DbState :=
  (connect exEnv emptyDb 0 "dbi:Oracle:PROD" "scott" [112] none "auto" "c1" 1).2

/-- … after `prepare` (statement `s1`). -/
def exStB : DbState := (prepare exEnv exStA 0 "c1" "SELECT X FROM T" 2 "s1").2

/-- … after `execute_statement` (which probes one row into the pending slot). -/
def exStC : DbState := (execute_statement exEnv exStB 10 "c1" "s1" 3 4).2

/-! ## C1 — restoration round-trip -/

/-- Claim C1: after removing the connection and the executed statement from the
in-memory stores (simulating a daemon restart), fetching is claimed to deliver the
same rows in the same order as an uninterrupted run, the saved pending row exactly
once.  The code violates this: the restore path re-executes the query — replaying
the full result set — and also re-attaches the saved pending row, so the probed row
is delivered twice.  Uninterrupted run: `[[1],[2]]`; restored run: `[[1],[1],[2]]`. -/
theorem restored_fetch_duplicates_pending_row :
    (fetch_rows_upto exEnv 20 "c1" "s1" 5 5 exStC).1 = [[1], [2]]
    ∧ (fetch_rows_upto exEnv 20 "c1" "s1" 6 6
        { exStC with connections := [], statements := [] }).1 = [[1], [1], [2]]
    ∧ ([[1], [1], [2]] : List (List Int)) ≠ [[1], [2]] :=
  ⟨rfl, rfl, by decide⟩

/-! ## C2 — concurrent-request counter balance -/

/-- Claim C2: the live concurrent-request counter is claimed to be decremented
exactly once per request even when the handler raises, so after N completed requests
it returns to 0.  The code violates this: `_handle_client` calls `track_request` but
`complete_request` has no caller on any path, so after N requests (raising or not)
the counter equals its starting value plus N — after one completed request it is 1,
not 0. -/
theorem concurrent_counter_never_decremented :
    (∀ (reqs : List Bool) (rm : RMState),
        (reqs.foldl (fun acc raised => handle_client_counter 0 raised acc) rm).concurrentRequests
          = rm.concurrentRequests + reqs.length)
    ∧ ([true].foldl (fun acc raised => handle_client_counter 0 raised acc)
          ({} : RMState)).concurrentRequests = 1 := by
  constructor
  · intro reqs
    induction reqs with
    | nil => intro rm; simp
    | cons b rest ih =>
      intro rm
      simp only [List.foldl_cons, List.length_cons]
      rw [ih]
      simp only [handle_client_counter, track_request]
      omega
  · rfl

/-! ## C6 — sanitization depth bound -/

/-- A validation configuration with a small string limit and the depth bound 10. -/
def depthCfg : ValidationCfg :=
  { maxStringLength := 5, maxArrayLength := 1000, maxObjectDepth := 10, maxParamCount := 100 }

/-- `params` nested 11 levels deep, past the configured depth bound of 10, with an
over-long string innermost. -/
def deepParams : Value :=
  .arr [.arr [.arr [.arr [.arr [.arr [.arr [.arr [.arr [.arr [.arr [.str "abcdefg"]]]]]]]]]]]

/-- Claim C6 describes the sanitization walk as bounded by the configured maximum
object depth.  The code enforces no such bound: `_sanitize_value` carries no depth
argument and consults `MAX_OBJECT_DEPTH` nowhere, so a value nested 11 levels deep —
past the configured bound of 10 — is still walked in full and its innermost string
truncated (recorded as a warning). -/
theorem sanitize_walks_past_depth_bound :
    valueDepth deepParams = 11
    ∧ depthCfg.maxObjectDepth < valueDepth deepParams
    ∧ sanitizeValue depthCfg deepParams [] "params"
      = (.arr [.arr [.arr [.arr [.arr [.arr [.arr [.arr [.arr [.arr [.arr [.str "abcde"]]]]]]]]]]],
         ["String truncated at params[0][0][0][0][0][0][0][0][0][0][0]: 7 > 5"]) :=
  ⟨rfl, by decide, rfl⟩

/-! ## C8 — resource classification -/

set_option maxRecDepth 4000 in
/-- Claim C8 asserts an 80%-of-limit soft warning for each of the four metrics.  The
request-rate metric has no warning threshold in the code: with the default limits, a
rate of 900/min (between 80% and 100% of the limit 1000) yields no warning at all. -/
theorem rate_warning_counterexample :
    ¬ (∀ (rm : RMState) (now : Nat),
        800 < (rm.requestTimestamps.filter (fun ts => now < ts + 60)).length →
        (rm.requestTimestamps.filter (fun ts => now < ts + 60)).length ≤ 1000 →
        RMetric.rate ∈ (check_resource_limits {} 0 0 rm now).warnings) := by
  intro h
  have hx := h { requestTimestamps := List.replicate 900 100, concurrentRequests := 0 } 100
    (by decide) (by decide)
  have hw : (check_resource_limits {} 0 0
      { requestTimestamps := List.replicate 900 100, concurrentRequests := 0 } 100).warnings
      = [] := by
    simp only [check_resource_limits]
    norm_num
  rw [hw] at hx
  simp at hx

/-- Claim C8, amended: each of the four metrics is classified against its hard limit
(violation when exceeded), but only process memory and CPU also have the
80%-of-limit soft warning band; the request rate and the concurrent-request count
have hard limits only and never appear among the warnings. -/
theorem resource_limits_classification (cfg : ResourceCfg) (memMb cpuPct : ℚ)
    (rm : RMState) (now : Nat) :
    (RMetric.memory ∈ (check_resource_limits cfg memMb cpuPct rm now).violations
        ↔ memMb > cfg.maxMemoryMb)
    ∧ (RMetric.memory ∈ (check_resource_limits cfg memMb cpuPct rm now).warnings
        ↔ (¬ memMb > cfg.maxMemoryMb ∧ memMb > cfg.maxMemoryMb * (4 / 5)))
    ∧ (RMetric.cpu ∈ (check_resource_limits cfg memMb cpuPct rm now).violations
        ↔ cpuPct > cfg.maxCpuPercent)
    ∧ (RMetric.cpu ∈ (check_resource_limits cfg memMb cpuPct rm now).warnings
        ↔ (¬ cpuPct > cfg.maxCpuPercent ∧ cpuPct > cfg.maxCpuPercent * (4 / 5)))
    ∧ (RMetric.rate ∈ (check_resource_limits cfg memMb cpuPct rm now).violations
        ↔ (rm.requestTimestamps.filter (fun ts => now < ts + 60)).length
            > cfg.maxRequestsPerMinute)
    ∧ (RMetric.concurrent ∈ (check_resource_limits cfg memMb cpuPct rm now).violations
        ↔ rm.concurrentRequests > cfg.maxConcurrentRequests)
    ∧ RMetric.rate ∉ (check_resource_limits cfg memMb cpuPct rm now).warnings
    ∧ RMetric.concurrent ∉ (check_resource_limits cfg memMb cpuPct rm now).warnings := by
  simp only [check_resource_limits]
  split_ifs <;> simp_all

/-- The memory hard limit classifies 1025 MB (limit 1024) as a violation. -/
theorem resource_limits_classification_witness :
    RMetric.memory ∈ (check_resource_limits {} 1025 0 ({} : RMState) 0).violations :=
  ((resource_limits_classification {} 1025 0 {} 0).1).mpr (by norm_num)

/-! ## C10 — credential obfuscation round-trip -/

/-- Claim C10: for every password whose characters XOR with the fixed key to code
points below 256 (in particular every ASCII password), decryption inverts
obfuscation, and the empty credential round-trips to the empty credential — so a
restored connection re-authenticates with the originally supplied password. -/
theorem simple_crypt_roundtrip (p : List Nat)
    (h : ∀ b ∈ xorKeyFrom 0 p, b < 256) :
    (∃ e, simple_encrypt p = some e ∧ simple_decrypt e = p)
    ∧ simple_encrypt [] = some [] ∧ simple_decrypt [] = [] := by
  refine ⟨?_, rfl, rfl⟩
  by_cases hp : p = []
  · subst hp
    exact ⟨[], rfl, rfl⟩
  · refine ⟨hexEncode (xorKeyFrom 0 p), ?_, ?_⟩
    · unfold simple_encrypt
      rw [if_neg hp, if_pos]
      rw [List.all_eq_true]
      intro b hb
      simpa using h b hb
    · unfold simple_decrypt
      have hne : hexEncode (xorKeyFrom 0 p) ≠ [] := by
        rcases p with _ | ⟨c, cs⟩
        · exact absurd rfl hp
        · simp [xorKeyFrom, hexEncode]
      rw [if_neg hne]
      simp only [hexDecode_hexEncode _ h]
      exact xorKeyFrom_xorKeyFrom 0 p

/-- The round-trip at the ASCII password `"secret"`. -/
theorem simple_crypt_roundtrip_witness :
    (∃ e, simple_encrypt [115, 101, 99, 114, 101, 116] = some e
        ∧ simple_decrypt e = [115, 101, 99, 114, 101, 116])
    ∧ simple_encrypt [] = some [] ∧ simple_decrypt [] = [] :=
  simple_crypt_roundtrip [115, 101, 99, 114, 101, 116] (by decide)

/-! ## C7 — lookup-or-restore for connection handles -/

/-- Claim C7: when a connection id is absent from memory, a missing or past-TTL
durable record yields the terminal "Invalid connection ID" error; an existing record
whose reconnect fails has its record deleted and yields the distinguishable
restore-failed error; a successful reconnect is inserted into memory and the
operation continues.  (The first conjunct ties "record absent or past its TTL" to
the durable load returning nothing.) -/
theorem ensure_connection_spec (env : Env) (st : DbState) (now : Nat) (cid : String)
    (tok : Nat) (h : alookup st.connections cid = none) :
    ((alookup st.connMeta cid = none
        ∨ ∃ m, alookup st.connMeta cid = some m ∧ now - m.createdAt > connectionTimeout)
      ↔ (load_connection_metadata st now cid).1 = none)
    ∧ ((load_connection_metadata st now cid).1 = none →
        (ensure_connection_available env st now cid tok).1 = .error "Invalid connection ID")
    ∧ (∀ m, (load_connection_metadata st now cid).1 = some m →
        restore_connection_from_metadata env m tok = none →
        (ensure_connection_available env st now cid tok).1
            = .error "Failed to restore connection - credentials may have changed"
        ∧ alookup (ensure_connection_available env st now cid tok).2.connMeta cid = none)
    ∧ (∀ m t, (load_connection_metadata st now cid).1 = some m →
        restore_connection_from_metadata env m tok = some t →
        (ensure_connection_available env st now cid tok).1 = .ok ()
        ∧ alookup (ensure_connection_available env st now cid tok).2.connections cid
            = some (restoredConnInfo m t)) := by
  refine ⟨?_, ?_, ?_, ?_⟩
  · unfold load_connection_metadata
    rcases hm : alookup st.connMeta cid with _ | m
    · simp
    · by_cases hexp : now - m.createdAt > connectionTimeout
      · simp [hexp]
      · simp [hexp]
  · intro hld
    unfold ensure_connection_available
    rw [h]
    rcases hpair : load_connection_metadata st now cid with ⟨mo, st1⟩
    rw [hpair] at hld
    simp at hld
    subst hld
    simp
  · intro m hld hre
    unfold ensure_connection_available
    rw [h]
    rcases hpair : load_connection_metadata st now cid with ⟨mo, st1⟩
    rw [hpair] at hld
    simp at hld
    subst hld
    simp [hre, alookup_aErase]
  · intro m t hld hre
    unfold ensure_connection_available
    rw [h]
    rcases hpair : load_connection_metadata st now cid with ⟨mo, st1⟩
    rw [hpair] at hld
    simp at hld
    subst hld
    simp [hre, alookup_aInsert]

/-- The missing-record case at a concrete empty store: the terminal invalid-id
error. -/
theorem ensure_connection_spec_witness :
    (ensure_connection_available exEnv emptyDb 0 "c9" 99).1 = .error "Invalid connection ID" :=
  (ensure_connection_spec exEnv emptyDb 0 "c9" 99 rfl).2.1 rfl

/-! ## C3 — transitive cleanup on disconnect -/

theorem alookup_filter_none (l : List (String × α)) (p : String × α → Bool) (k : String)
    (h : alookup l k = none) : alookup (l.filter p) k = none := by
  unfold alookup at h ⊢
  rcases hf : List.find? (fun q => q.1 == k) l with _ | x
  · have hnone : List.find? (fun q => q.1 == k) (l.filter p) = none := by
      rw [List.find?_eq_none] at hf ⊢
      intro x hx
      exact hf x (List.mem_of_mem_filter hx)
    rw [hnone]
    rfl
  · rw [hf] at h
    simp at h

theorem alookup_filter_keys_true (l : List (String × α)) (p : String → Bool) (k : String)
    (hpk : p k = true) : alookup (l.filter (fun q => p q.1)) k = alookup l k := by
  induction l with
  | nil => rfl
  | cons hd tl ih =>
    by_cases hk : (hd.1 == k) = true
    · have hp : p hd.1 = true := by rw [eq_of_beq hk, hpk]
      rw [List.filter_cons, if_pos hp, alookup_cons_pos _ _ _ hk, alookup_cons_pos _ _ _ hk]
    · rw [Bool.not_eq_true] at hk
      by_cases hp : p hd.1 = true
      · rw [List.filter_cons, if_pos hp, alookup_cons_neg _ _ _ hk,
          alookup_cons_neg _ _ _ hk]
        exact ih
      · rw [List.filter_cons, if_neg hp, alookup_cons_neg _ _ _ hk]
        exact ih

theorem alookup_none_keys (l : List (String × α)) (k : String)
    (h : alookup l k = none) : ∀ x ∈ l, (x.1 == k) = false := by
  unfold alookup at h
  rcases hf : List.find? (fun q => q.1 == k) l with _ | x
  · rw [List.find?_eq_none] at hf
    intro x hx
    simpa using hf x hx
  · rw [hf] at h
    simp at h

def c3Conn : ConnInfo :=
  { conn := 1, type := "oracle", dsn := "dbi:Oracle:PROD", username := "scott",
    authMode := some "password", autocommit := true, raiseError := false, printError := true }

def c3ConnMeta : ConnMeta :=
  { type := "oracle", dsn := "dbi:Oracle:PROD", username := "scott", password := [51, 51],
    authMode := "password", autocommit := true, raiseError := false, printError := true,
    createdAt := 0, lastUsed := 0 }

/-- A durable statement record owned by `c1` whose statement is not in memory. -/
def c3Meta : StmtMeta :=
  { connectionId := "c1", sql := "SELECT X FROM T", executed := true, finished := false,
    peekedRow := none, createdAt := 0, lastUsed := 0 }

/-- Connection `c1` live and durable; statement `s1` only as a durable record. -/
def c3State : DbState :=
  { connections := [("c1", c3Conn)], statements := [], connMeta := [("c1", c3ConnMeta)],
    stmtMeta := [("s1", c3Meta)], cache := [] }

/-- Claim C3 says disconnect removes the durable record of every statement whose
owning-connection id matches, including statements not present in the in-memory
statement map.  It does not: disconnect iterates only over the in-memory `_statements`
dict, so the durable record of `s1` — owned by `c1` but not in memory — survives
`disconnect("c1")`. -/
theorem disconnect_orphan_record_counterexample :
    ¬ (∀ (st : DbState) (cid sid : String) (m : StmtMeta),
        alookup st.stmtMeta sid = some m → m.connectionId = cid →
        alookup ((disconnect st cid).2).stmtMeta sid = none) := by
  intro h
  have hx := h c3State "c1" "s1" c3Meta rfl rfl
  rw [show alookup ((disconnect c3State "c1").2).stmtMeta "s1" = some c3Meta from rfl] at hx
  exact Option.noConfusion hx

theorem alookup_if_erase_none (l : List (String × α)) (k : String) :
    alookup (if (alookup l k).isSome then aErase l k else l) k = none := by
  rcases hc : alookup l k with _ | c
  · simp only [Option.isSome_none, Bool.false_eq_true, if_false]
    exact hc
  · rw [if_pos (by simp)]
    exact alookup_aErase l k

theorem fetch_row_absent (env : Env) (st' : DbState) (now2 : Nat) (cid sid : String)
    (tokF : Nat) (h1 : alookup st'.statements sid = none)
    (h2 : alookup st'.stmtMeta sid = none) :
    fetch_row env st' now2 cid sid tokF = (.failure "Invalid statement ID", st') := by
  unfold fetch_row ensure_statement_in_memory load_statement_metadata
  simp only [h1, h2, Option.isSome_none, Bool.false_eq_true, if_false]

theorem fetch_row_orphan (env : Env) (st' : DbState) (now2 : Nat) (cid sid : String)
    (tokF : Nat) (m : StmtMeta)
    (h1 : alookup st'.statements sid = none)
    (h2 : alookup st'.stmtMeta sid = some m)
    (howner : m.connectionId = cid)
    (hTTL : ¬ now2 - m.createdAt > connectionTimeout)
    (h3 : alookup st'.connections cid = none)
    (h4 : alookup st'.connMeta cid = none) :
    (fetch_row env st' now2 cid sid tokF).1
      = .failure "Failed to restore statement - connection may have expired"
    ∧ alookup (fetch_row env st' now2 cid sid tokF).2.stmtMeta sid = none := by
  have hload : load_statement_metadata st' now2 sid
      = (some { m with lastUsed := now2 },
         { st' with stmtMeta := aInsert st'.stmtMeta sid { m with lastUsed := now2 } }) := by
    unfold load_statement_metadata
    simp only [h2]
    rw [if_neg hTTL]
  have hrsm : restore_statement_from_metadata env
      ({ st' with stmtMeta := aInsert st'.stmtMeta sid { m with lastUsed := now2 } })
      now2 ({ m with lastUsed := now2 }) tokF
      = (none, { st' with stmtMeta := aInsert st'.stmtMeta sid { m with lastUsed := now2 } }) := by
    unfold restore_statement_from_metadata load_connection_metadata
    simp [howner, h3, h4]
  have hens : ensure_statement_in_memory env st' now2 sid tokF
      = (.error "Failed to restore statement - connection may have expired",
         { st' with stmtMeta := aErase (aInsert st'.stmtMeta sid { m with lastUsed := now2 }) sid }) := by
    unfold ensure_statement_in_memory
    simp only [h1, Option.isSome_none, Bool.false_eq_true, if_false, hload, hrsm]
  unfold fetch_row
  rw [hens]
  exact ⟨rfl, alookup_aErase _ sid⟩

/-- Claim C3, amended: disconnect removes the connection (memory and durable record)
and, for every statement present in the in-memory map with matching owner, both the
in-memory entry and the durable record — a later fetch on such a statement yields the
terminal "Invalid statement ID" without a restoration attempt.  A statement of that
connection present only in durable storage keeps its record; a later fetch on it does
attempt restoration, which fails against the deleted connection record: it returns
the distinguishable restore-failed error and only then deletes the orphaned record. -/
theorem disconnect_cleanup_spec (env : Env) (st : DbState) (cid : String)
    (now2 tokF : Nat) :
    alookup (disconnect st cid).2.connMeta cid = none
    ∧ alookup (disconnect st cid).2.connections cid = none
    ∧ (∀ sid s, alookup st.statements sid = some s → s.connectionId = cid →
        alookup (disconnect st cid).2.statements sid = none
        ∧ alookup (disconnect st cid).2.stmtMeta sid = none
        ∧ (fetch_row env (disconnect st cid).2 now2 cid sid tokF).1
            = .failure "Invalid statement ID")
    ∧ (∀ sid m, alookup st.statements sid = none → alookup st.stmtMeta sid = some m →
        alookup (disconnect st cid).2.stmtMeta sid = some m
        ∧ (m.connectionId = cid → ¬ now2 - m.createdAt > connectionTimeout →
            (fetch_row env (disconnect st cid).2 now2 cid sid tokF).1
              = .failure "Failed to restore statement - connection may have expired"
            ∧ alookup ((fetch_row env (disconnect st cid).2 now2 cid sid tokF).2).stmtMeta sid
              = none)) := by
  refine ⟨alookup_aErase st.connMeta cid, alookup_if_erase_none st.connections cid, ?_, ?_⟩
  · intro sid s hs howner
    have hmemEntry : ∃ x ∈ st.statements, x.1 = sid ∧ x.2 = s := by
      unfold alookup at hs
      rcases hf : List.find? (fun q => q.1 == sid) st.statements with _ | x
      · rw [hf] at hs
        simp at hs
      · rw [hf] at hs
        simp at hs
        refine ⟨x, List.mem_of_find?_eq_some hf, ?_, hs⟩
        have := List.find?_some hf
        simpa using this
    obtain ⟨x, hxmem, hx1, hx2⟩ := hmemEntry
    have hcontains :
        (((st.statements.filter (fun p => p.2.connectionId == cid)).map (·.1)).contains sid)
          = true := by
      have hmem : sid ∈ (st.statements.filter (fun p => p.2.connectionId == cid)).map (·.1) := by
        refine List.mem_map.mpr ⟨x, ?_, hx1⟩
        refine List.mem_filter.mpr ⟨hxmem, ?_⟩
        rw [hx2, howner]
        simp
      exact List.elem_eq_true_of_mem hmem
    have hstmts : alookup (disconnect st cid).2.statements sid = none := by
      show alookup (st.statements.filter (fun p =>
        !(((st.statements.filter (fun q => q.2.connectionId == cid)).map (·.1)).contains p.1)))
        sid = none
      exact alookup_filter_keys_none st.statements
        (fun k => !(((st.statements.filter (fun q => q.2.connectionId == cid)).map (·.1)).contains k))
        sid (by simp only [hcontains, Bool.not_true])
    have hmeta : alookup (disconnect st cid).2.stmtMeta sid = none := by
      show alookup (st.stmtMeta.filter (fun p =>
        !(((st.statements.filter (fun q => q.2.connectionId == cid)).map (·.1)).contains p.1)))
        sid = none
      exact alookup_filter_keys_none st.stmtMeta
        (fun k => !(((st.statements.filter (fun q => q.2.connectionId == cid)).map (·.1)).contains k))
        sid (by simp only [hcontains, Bool.not_true])
    exact ⟨hstmts, hmeta, by rw [fetch_row_absent env _ now2 cid sid tokF hstmts hmeta]⟩
  · intro sid m hsnone hmsome
    have hnotin :
        (((st.statements.filter (fun p => p.2.connectionId == cid)).map (·.1)).contains sid)
          = false := by
      by_contra hcon
      rw [Bool.not_eq_false] at hcon
      have hmem : sid ∈ (st.statements.filter (fun p => p.2.connectionId == cid)).map (·.1) :=
        List.mem_of_elem_eq_true hcon
      obtain ⟨x, hxmem, hx1⟩ := List.mem_map.mp hmem
      have hxorig := List.mem_of_mem_filter hxmem
      have hkeys := alookup_none_keys st.statements sid hsnone x hxorig
      rw [hx1] at hkeys
      simp at hkeys
    have hmetaKept : alookup (disconnect st cid).2.stmtMeta sid = some m := by
      show alookup (st.stmtMeta.filter (fun p =>
        !(((st.statements.filter (fun q => q.2.connectionId == cid)).map (·.1)).contains p.1)))
        sid = some m
      rw [alookup_filter_keys_true st.stmtMeta
        (fun k => !(((st.statements.filter (fun q => q.2.connectionId == cid)).map (·.1)).contains k))
        sid (by simp only [hnotin, Bool.not_false])]
      exact hmsome
    refine ⟨hmetaKept, ?_⟩
    intro howner hTTL
    have hstmtsNone : alookup (disconnect st cid).2.statements sid = none := by
      show alookup (st.statements.filter (fun p =>
        !(((st.statements.filter (fun q => q.2.connectionId == cid)).map (·.1)).contains p.1)))
        sid = none
      exact alookup_filter_none _ _ _ hsnone
    exact fetch_row_orphan env _ now2 cid sid tokF m hstmtsNone hmetaKept howner hTTL
      (alookup_if_erase_none st.connections cid) (alookup_aErase st.connMeta cid)

/-- The orphan branch at `c3State`: after `disconnect("c1")`, fetching `s1` attempts
restoration and returns the restore-failed error (not "Invalid statement id"). -/
theorem disconnect_cleanup_spec_witness :
    (fetch_row exEnv ((disconnect c3State "c1").2) 100 "c1" "s1" 9).1
      = .failure "Failed to restore statement - connection may have expired" :=
  (((disconnect_cleanup_spec exEnv c3State "c1" 100 9).2.2.2 "s1" c3Meta rfl rfl).2 rfl
    (by decide)).1

/-! ## C5 — pending-row exactly-once (no restoration) -/

/-- The in-memory statement right after an execute that probed `r0` to obtain the
result shape: fresh cursor on the remaining rows, pending slot holding `r0`. -/
def probedStmt (stmt : StmtInfo) (r0 : List Int) (remaining : List (List Int)) : StmtInfo :=
  { stmt with
    cursor := some { rows := remaining, descAvail := true },
    executed := true,
    peekedRow := some r0 }

/-- The same statement after the first fetch consumed the pending slot. -/
def probedStmtCleared (stmt : StmtInfo) (remaining : List (List Int)) : StmtInfo :=
  { stmt with
    cursor := some { rows := remaining, descAvail := true },
    executed := true,
    peekedRow := none }

/-- Claim C5: when an executed SELECT's shape had to be probed by consuming one row
(`cursor.description` empty after execute, populated after the probe), the probed
row sits in the statement's pending slot; the first subsequent fetch returns it,
clears the slot and leaves the cursor untouched (no driver pull), and the second
fetch returns the row that was actually next in the result set. -/
theorem pending_row_exactly_once
    (env : Env) (st : DbState) (now : Nat) (cid sid : String) (tok tok2 tokF : Nat)
    (conn : ConnInfo) (stmt : StmtInfo) (r0 r1 : List Int) (rest : List (List Int))
    (hc : alookup st.connections cid = some conn)
    (hs : alookup st.statements sid = some stmt)
    (hq : env.query stmt.sql = r0 :: r1 :: rest)
    (hsel : startsWithStr (upperString (stripString stmt.sql)) "SELECT" = true)
    (hprobe : env.descReady stmt.sql = false)
    (hdesc : env.descAfterFetch stmt.sql = true)
    (hexec : env.execOk stmt.sql = true)
    (hfin : stmt.finished = false) :
    (execute_statement env st now cid sid tok tok2).1 = .ok 1
    ∧ alookup (execute_statement env st now cid sid tok tok2).2.statements sid
        = some (probedStmt stmt r0 (r1 :: rest))
    ∧ (fetch_row env (execute_statement env st now cid sid tok tok2).2 now cid sid tokF).1
        = .row r0
    ∧ alookup ((fetch_row env (execute_statement env st now cid sid tok tok2).2
          now cid sid tokF).2).statements sid
        = some (probedStmtCleared stmt (r1 :: rest))
    ∧ (fetch_row env ((fetch_row env (execute_statement env st now cid sid tok tok2).2
          now cid sid tokF).2) now cid sid tokF).1
        = .row r1 := by
  have hexe : execute_statement env st now cid sid tok tok2
      = (.ok 1,
         save_statement_metadata
           { st with statements := aInsert st.statements sid (probedStmt stmt r0 (r1 :: rest)) }
           now sid (probedStmt stmt r0 (r1 :: rest))) := by
    unfold execute_statement ensure_connection_available ensure_statement_in_memory
    simp only [hc, hs, Option.isSome_some, if_true, hexec, hq, hprobe, hdesc, hsel]
    simp [probedStmt]
  have hone : (execute_statement env st now cid sid tok tok2).1 = .ok 1 := by
    rw [hexe]
  have hs1 : alookup (execute_statement env st now cid sid tok tok2).2.statements sid
      = some (probedStmt stmt r0 (r1 :: rest)) := by
    rw [hexe]
    exact alookup_aInsert st.statements sid _
  have hfet1 : fetch_row env (execute_statement env st now cid sid tok tok2).2 now cid sid tokF
      = (.row r0,
         { (execute_statement env st now cid sid tok tok2).2 with
           statements := aInsert (execute_statement env st now cid sid tok tok2).2.statements
             sid (probedStmtCleared stmt (r1 :: rest)) }) := by
    unfold fetch_row ensure_statement_in_memory fetch_row_core
    simp only [hs1, Option.isSome_some, if_true]
    simp [probedStmt, probedStmtCleared, hfin]
  have hs2 : alookup ((fetch_row env (execute_statement env st now cid sid tok tok2).2
        now cid sid tokF).2).statements sid
      = some (probedStmtCleared stmt (r1 :: rest)) := by
    rw [hfet1]
    exact alookup_aInsert _ sid _
  have hfet2 : (fetch_row env ((fetch_row env (execute_statement env st now cid sid tok tok2).2
        now cid sid tokF).2) now cid sid tokF).1 = .row r1 := by
    generalize hgen : (fetch_row env (execute_statement env st now cid sid tok tok2).2
        now cid sid tokF).2 = stX at hs2 ⊢
    unfold fetch_row ensure_statement_in_memory fetch_row_core
    simp only [hs2, Option.isSome_some, if_true]
    simp [probedStmtCleared, hfin]
  exact ⟨hone, hs1, by rw [hfet1], hs2, hfet2⟩

/-- The exactly-once property at the concrete probed two-row query: first fetch
`[1]`, second fetch `[2]`. -/
theorem pending_row_exactly_once_witness :
    (fetch_row exEnv (execute_statement exEnv exStB 10 "c1" "s1" 3 4).2 10 "c1" "s1" 5).1
      = .row [1]
    ∧ (fetch_row exEnv ((fetch_row exEnv (execute_statement exEnv exStB 10 "c1" "s1" 3 4).2
        10 "c1" "s1" 5).2) 10 "c1" "s1" 5).1 = .row [2] := by
  have h := pending_row_exactly_once exEnv exStB 10 "c1" "s1" 3 4 5
    { conn := 1, type := "oracle", dsn := "dbi:Oracle:PROD", username := "scott",
      authMode := some "password", autocommit := true, raiseError := false,
      printError := true }
    { connectionId := "c1", sql := "SELECT X FROM T", cursor := none, executed := false,
      finished := false, peekedRow := none }
    [1] [2] [] rfl rfl rfl rfl rfl rfl rfl rfl
  exact ⟨h.2.2.1, h.2.2.2.2⟩

/-! ## C9 — the whitelist and dispatch -/

/-- An unwhitelisted pair whose module name contains the dangerous substring
`exec`. -/
def c9Req : Req := { module := "exec", function := "ping", params := .null, requestId := "r1" }

/-- Claim C9 says every request with an unwhitelisted `(module, function)` pair is
rejected *with an unauthorized_module/unauthorized_function error*.  Not every one
is: `("exec", "ping")` is unwhitelisted, but the security step rejects it first with
a `dangerous_function` event, and the whitelist step never runs — no unauthorized
event is emitted. -/
theorem whitelist_error_type_counterexample :
    ¬ (∀ (cfg : ValidationCfg) (r : Req), whitelistedPair r.module r.function = false →
        (validate_request cfg r).isValid = false
        ∧ ∃ ev ∈ (validate_request cfg r).securityEvents,
            (ev.eventType = "unauthorized_module" ∨ ev.eventType = "unauthorized_function")
            ∧ ev.severity = "error") := by
  intro h
  have hx := (h {} c9Req rfl).2
  rw [show (validate_request {} c9Req).securityEvents
      = [{ eventType := "dangerous_function", severity := "error" }] from rfl] at hx
  obtain ⟨ev, hmem, htype, _⟩ := hx
  rw [List.mem_singleton] at hmem
  subst hmem
  rcases htype with h3 | h3 <;> exact absurd h3 (by decide)

/-- Claim C9, amended: every request whose `(module, function)` pair is absent from
the static whitelist registry — administrative modules included — fails validation,
so `_route_request` is never reached for it (dispatch of an unwhitelisted pair is
unreachable).  When the request passes the structural, schema and security steps,
the rejection is specifically `unauthorized_module`/`unauthorized_function` with an
`error`-severity security event; a request rejected by an earlier pipeline step may
instead carry that step's error (e.g. `dangerous_function`). -/
theorem unwhitelisted_rejected_before_dispatch (cfg : ValidationCfg) (r : Req)
    (h : whitelistedPair r.module r.function = false) :
    (validate_request cfg r).isValid = false
    ∧ (∀ m f, handle_client cfg r ≠ .handled m f)
    ∧ ((validateSteps123 cfg r).isValid = true →
        ∃ ev ∈ (validate_request cfg r).securityEvents,
          (ev.eventType = "unauthorized_module" ∨ ev.eventType = "unauthorized_function")
          ∧ ev.severity = "error") := by
  have hwl : ∀ res : VRes, (validateWhitelist r res).isValid = false
      ∧ ∃ ev ∈ (validateWhitelist r res).securityEvents,
          (ev.eventType = "unauthorized_module" ∨ ev.eventType = "unauthorized_function")
          ∧ ev.severity = "error" := by
    intro res
    unfold validateWhitelist
    rcases hm : alookup module_whitelist r.module with _ | fns
    · exact ⟨rfl, ⟨{ eventType := "unauthorized_module", severity := "error" }, by simp,
        Or.inl rfl, rfl⟩⟩
    · have hcontains : fns.contains r.function = false := by
        have h2 := h
        unfold whitelistedPair at h2
        rw [hm] at h2
        exact h2
      have hnm : r.function ∉ fns := by
        intro hmem
        have helem := List.elem_eq_true_of_mem hmem
        rw [show fns.contains r.function = fns.elem r.function from rfl, helem] at hcontains
        exact Bool.noConfusion hcontains
      exact ⟨by simp [hnm], ⟨{ eventType := "unauthorized_function", severity := "error" },
        by simp [hnm], Or.inr rfl, rfl⟩⟩
  rcases hv : (validateSteps123 cfg r).isValid with _ | _
  · -- an earlier step already rejected; sanitize and whitelist are skipped
    have hvr : validate_request cfg r = validateSteps123 cfg r := by
      simp [validate_request, hv]
    have h1 : (validate_request cfg r).isValid = false := by rw [hvr, hv]
    refine ⟨h1, ?_, ?_⟩
    · intro m f heq
      simp [handle_client, h1] at heq
    · intro hcontra
      exact Bool.noConfusion hcontra
  · -- steps 1–3 passed; sanitize preserves validity and the whitelist step rejects
    rcases hsan : sanitizeRequest cfg r (validateSteps123 cfg r).warnings with ⟨sr, sw⟩
    have hvr : validate_request cfg r
        = validateWhitelist r
            { validateSteps123 cfg r with warnings := sw, sanitizedRequest := some sr } := by
      simp [validate_request, hv, hsan]
    have h1 : (validate_request cfg r).isValid = false := by
      rw [hvr]
      exact (hwl _).1
    refine ⟨h1, ?_, ?_⟩
    · intro m f heq
      simp [handle_client, h1] at heq
    · intro _
      rw [hvr]
      exact (hwl _).2

/-- A request for a module absent from the registry. -/
def c9UnknownReq : Req :=
  { module := "nomodule", function := "ping", params := .null, requestId := "r1" }

/-- The amended claim at a module absent from the registry. -/
theorem unwhitelisted_rejected_witness :
    (validate_request {} c9UnknownReq).isValid = false :=
  (unwhitelisted_rejected_before_dispatch {} c9UnknownReq rfl).1

/-! ## C4 — cache identity over credential change -/

/-- Key-removal filters only remove entries (first-order form of
`alookup_filter_keys` for a removal list `L`). -/
theorem alookup_filter_not_contains (l : List (String × α)) (L : List String) (k : String)
    (v : α) (h : alookup (l.filter (fun q => !(L.contains q.1))) k = some v) :
    alookup l k = some v :=
  alookup_filter_keys l (fun a => !(L.contains a)) k v h

/-- The cache purge only removes entries: a key still bound after
`_cleanup_stale_cache_entries` was bound to the same entry before. -/
theorem cleanup_cache_lookup (env : Env) (st : DbState) (now : Nat) (k : String)
    (v : CacheEntry)
    (h : alookup (cleanup_stale_cache_entries env st now).cache k = some v) :
    alookup st.cache k = some v := by
  simp only [cleanup_stale_cache_entries] at h
  split at h
  · dsimp only at h
    exact alookup_filter_not_contains _ _ _ _ (alookup_filter_not_contains _ _ _ _ h)
  · dsimp only at h
    exact alookup_filter_not_contains _ _ _ _ h

/-- Claim C4: the cache key is computed from the DSN's database identity, the
username and the behaviour-flag signature only — `_make_cache_key` takes no password
at all — so two `connect_cached` calls agreeing on dsn, username and flags but
supplying different passwords (`pwA`, then later `pwB`) both return the cached
connection id while the entry is alive and passes its liveness probe. -/
theorem connect_cached_password_independent
    (env : Env) (st : DbState) (now now2 : Nat) (dsn username : String)
    (pwA pwB : List Nat) (options : Option DbOptions)
    (newCid1 newCid2 : String) (tok1 tok2 : Nat) (key : String) (e1 e2 : CacheEntry)
    (hk : make_cache_key dsn username options = .ok key)
    (h1 : alookup (cleanup_stale_cache_entries env st now).cache key = some e1)
    (h1a : env.alive e1.connection.conn = true)
    (h2 : alookup (cleanup_stale_cache_entries env
        (connect_cached env st now dsn username pwA options newCid1 tok1).2 now2).cache key
        = some e2)
    (h2a : env.alive e2.connection.conn = true) :
    (connect_cached env st now dsn username pwA options newCid1 tok1).1
      = .ok { connectionId := e1.connectionId, cached := true }
    ∧ (connect_cached env (connect_cached env st now dsn username pwA options newCid1 tok1).2
        now2 dsn username pwB options newCid2 tok2).1
      = .ok { connectionId := e1.connectionId, cached := true } := by
  have hcall1 : connect_cached env st now dsn username pwA options newCid1 tok1
      = (.ok { connectionId := e1.connectionId, cached := true },
         { cleanup_stale_cache_entries env st now with
           cache := aInsert (cleanup_stale_cache_entries env st now).cache key
             { e1 with lastUsed := now } }) := by
    simp only [connect_cached, hk, h1, h1a, if_true]
  have he2 : e2 = { e1 with lastUsed := now } := by
    have hlook : alookup
        (connect_cached env st now dsn username pwA options newCid1 tok1).2.cache key
        = some e2 := cleanup_cache_lookup env _ now2 key e2 h2
    rw [hcall1] at hlook
    rw [show alookup
        ({ cleanup_stale_cache_entries env st now with
           cache := aInsert (cleanup_stale_cache_entries env st now).cache key
             { e1 with lastUsed := now } } : DbState).cache key
        = alookup (aInsert (cleanup_stale_cache_entries env st now).cache key
             { e1 with lastUsed := now }) key from rfl] at hlook
    rw [alookup_aInsert] at hlook
    exact (Option.some.inj hlook).symm
  have hcall2 : (connect_cached env
      (connect_cached env st now dsn username pwA options newCid1 tok1).2
      now2 dsn username pwB options newCid2 tok2).1
      = .ok { connectionId := e2.connectionId, cached := true } := by
    generalize hg : (connect_cached env st now dsn username pwA options newCid1 tok1).2
      = stMid at h2 ⊢
    simp only [connect_cached, hk, h2, h2a, if_true]
  refine ⟨by rw [hcall1], ?_⟩
  rw [hcall2, he2]

/-- A live cache entry `cX` keyed without the password: the first call (password
`"p"`) and a later call (password `"cc"`) both return `cX` as a cache hit. -/
def c4Entry : CacheEntry :=
  { connectionId := "cX", connection := c3Conn, createdAt := 900, lastUsed := 950,
    dsn := "dbi:Oracle:PROD", username := "scott", options := none,
    cacheKey := "oracle:PROD:scott:ac1_re0_pe1" }

def c4State : DbState :=
  { connections := [("cX", c3Conn)], statements := [], connMeta := [], stmtMeta := [],
    cache := [("oracle:PROD:scott:ac1_re0_pe1", c4Entry)] }

/-- Two sequential `connect_cached` calls with different passwords both hit
entry `cX`. -/
theorem connect_cached_password_independent_witness :
    (connect_cached exEnv c4State 1000 "dbi:Oracle:PROD" "scott" [112] none "cNew" 7).1
      = .ok { connectionId := "cX", cached := true }
    ∧ (connect_cached exEnv
        (connect_cached exEnv c4State 1000 "dbi:Oracle:PROD" "scott" [112] none "cNew" 7).2
        1100 "dbi:Oracle:PROD" "scott" [99, 99] none "cNew2" 8).1
      = .ok { connectionId := "cX", cached := true } :=
  connect_cached_password_independent exEnv c4State 1000 1100 "dbi:Oracle:PROD" "scott"
    [112] [99, 99] none "cNew" "cNew2" 7 8 "oracle:PROD:scott:ac1_re0_pe1"
    c4Entry ({ c4Entry with lastUsed := 1000 }) rfl rfl rfl rfl rfl

end CpanBridge
